import Mathlib

/-!
Verification of the Lead Lifecycle Reminder and Change-Detection Engine
(`src/services/reminders.py`, `src/services/lead_monitor.py`, `src/database.py`,
`src/utils/time_utils.py`, `src/google_sheets.py`).

Shallow embedding notes.

* Timestamps inside the engine are modelled as `Int` whole seconds.  The code
  passes timestamps around as strings produced by `format_datetime` with the
  default pattern, which renders a UTC datetime to whole-second precision; the
  string is a faithful (injective) image of the whole-second timestamp, as the
  round-trip development at the end of this file shows.  Equality of the ledger
  key strings therefore coincides with equality of the modelled `Int` values.
* A spreadsheet cell holding a timestamp is seen by the engine through
  `parse_datetime`; the three behaviourally distinct cases (empty cell,
  non-empty unparsable cell, parsed value) are modelled by `TsField`.
* sqlite tables are modelled as lists of row records; the UNIQUE constraint of
  the `reminders` table is modelled inside `mark_reminder_sent` exactly as the
  code experiences it (an insert raises `IntegrityError`, reported as `false`,
  iff a row with the same `(lead_id, reminder_type, scheduled_time)` triple
  already exists).
* Side effects (ledger queries and inserts, notification dispatch attempts,
  spreadsheet writes, lead-state writes) are recorded in an `Op` trace so that
  theorems can speak about what the engine did and in which order.
-/

/-- One row of the sqlite `reminders` table (`src/database.py`,
`init_database`): column default for `status` is `pending`, uniqueness on
`(lead_id, reminder_type, scheduled_time)`. -/
structure Entry where
  lead_id : String
  reminder_type : String
  scheduled_time : Int
  sent_time : Option Int
  status : String
  created_at : Int
deriving DecidableEq

/-- A timestamp-bearing cell of a lead row, as seen through `parse_datetime`:
empty string, non-empty but unparsable, or a parsed UTC timestamp in whole
seconds. -/
inductive TsField where
  | empty : TsField
  | bad : TsField
  | ok (t : Int) : TsField
deriving DecidableEq

/-- A lead record as returned by `GoogleSheetsClient.get_all_leads`
(`src/google_sheets.py`): every field already stripped; the fields that the
reminder and monitor services consult. -/
structure Lead where
  id : String
  status : String
  seller : String
  created_at : TsField
  call1 : TsField
  call2 : TsField
  call3 : TsField
  first_class : TsField
deriving DecidableEq

/-- One row of the sqlite `lead_state` table. -/
structure StateRec where
  lead_id : String
  last_status : String
  last_updated : Int
  last_checked : Int
deriving DecidableEq

/-- One row of the sqlite `sellers` table, as returned by `get_all_sellers`
(`src/database.py`): the table has exactly the columns `id`, `seller_name`,
`telegram_id`, `is_active`, `created_at`, `updated_at`. -/
structure SellerRow where
  id : Int
  seller_name : String
  telegram_id : Option Int
  is_active : Int
  created_at : String
  updated_at : String
deriving DecidableEq

/-- `dict.get` on a row dictionary produced from the `sellers` table: only the
six actual column names are present; any other key (in particular `full_name`
and `username`, which belong to the `users` table) yields `None`.  Integer
columns are irrelevant to the callers of this accessor and are omitted. -/
def sellerRowGet (s : SellerRow) (k : String) : Option String :=
  if k = "seller_name" then some s.seller_name
  else if k = "created_at" then some s.created_at
  else if k = "updated_at" then some s.updated_at
  else none

/-- Observable side effects of one engine step, in program order. -/
inductive Op where
  | queryWasSent (lead_id ty : String) (sched : Int)
  | dispatch (lead_id ty : String) (sched : Int)
  | insertLedger (lead_id ty : String) (sched : Int)
  | sheetWrite (lead_id field : String) (t : Int) (ok : Bool)
  | updateLead (lead_id status : String) (call1 : Int)
  | notifyNewLead (tid : Int) (lead_id : String)
  | stateWrite (lead_id status : String)
deriving DecidableEq

/-- Row matches a `(lead_id, reminder_type, scheduled_time)` triple. -/
def matchesTriple (e : Entry) (lid ty : String) (sched : Int) : Bool :=
  e.lead_id == lid && e.reminder_type == ty && e.scheduled_time == sched

/-- Does any row (of any status) with the triple exist?  This is exactly the
condition under which the UNIQUE constraint rejects an insert. -/
def tripInDb (db : List Entry) (lid ty : String) (sched : Int) : Bool :=
  db.any (fun e => matchesTriple e lid ty sched)

/-- `database.mark_reminder_sent`: INSERT a row with `status = sent` and
`sent_time = now`; an `IntegrityError` (duplicate triple) returns `False` and
leaves the table untouched. -/
def mark_reminder_sent (db : List Entry) (lid ty : String) (sched now : Int) :
    List Entry × Bool :=
  if tripInDb db lid ty sched then (db, false)
  else (db ++ [⟨lid, ty, sched, some now, "sent", now⟩], true)

/-- `database.was_reminder_sent`: COUNT rows with the triple and
`status = sent`. -/
def was_reminder_sent (db : List Entry) (lid ty : String) (sched : Int) : Bool :=
  db.any (fun e => matchesTriple e lid ty sched && e.status == "sent")

/-- Result of one reminders-service handler invocation: ledger state, the
`reminders_sent` list of `(type, lead_id)` pairs that the handler returns, and
the side-effect trace. -/
structure PassOut where
  db : List Entry
  sent : List (String × String)
  trace : List Op
deriving DecidableEq

/-- The repeated guarded block of `ReminderService` rule handling
(`src/services/reminders.py`): when the rule instance is due, check
`was_reminder_sent`; if unsent, invoke the send routine, then
`mark_reminder_sent`, then append to `reminders_sent`. -/
def ruleStep (lid ty : String) (sched now : Int) (due : Bool) (st : PassOut) :
    PassOut :=
  if due then
    if was_reminder_sent st.db lid ty sched then
      ⟨st.db, st.sent, st.trace ++ [.queryWasSent lid ty sched]⟩
    else
      ⟨(mark_reminder_sent st.db lid ty sched now).1,
        st.sent ++ [(ty, lid)],
        st.trace ++ [.queryWasSent lid ty sched, .dispatch lid ty sched,
          .insertLedger lid ty sched]⟩
  else st

/-- `ReminderService._handle_call1_needed`: three escalating rules off
`created_at` (1h and 2h to the seller, 12h to admins), each with
`scheduled_time = created_at + offset`; due when
`hours_between created_at now ≥ offset`. -/
def handleCall1Needed (db : List Entry) (lead : Lead) (now : Int) : PassOut :=
  match lead.created_at with
  | .empty => ⟨db, [], []⟩
  | .bad => ⟨db, [], []⟩
  | .ok c =>
      let st1 := ruleStep lead.id "call1_1h" (c + 3600) now
        (decide (3600 ≤ now - c)) ⟨db, [], []⟩
      let st2 := ruleStep lead.id "call1_2h" (c + 7200) now
        (decide (7200 ≤ now - c)) st1
      ruleStep lead.id "call1_12h" (c + 43200) now
        (decide (43200 ≤ now - c)) st2

/-- `ReminderService._handle_call1_done`: if `Call_1_Time` is empty, write now
to it (result ignored); if `Call_2_Time` is empty, write `call1_time + 7200`
to it (result ignored), send the scheduled notification and record the event
with no ledger row; if `Call_2_Time` parses and is past, run the `call2_due`
rule.  `wr field value` is the success flag the external write would return;
the code never reads it. -/
def handleCall1Done (db : List Entry) (lead : Lead) (now : Int)
    (wr : String → Int → Bool) : PassOut :=
  let c1 : Int := match lead.call1 with
    | .empty => now
    | .bad => now
    | .ok t => t
  let wOps : List Op := match lead.call1 with
    | .empty => [.sheetWrite lead.id "Call_1_Time" now (wr "Call_1_Time" now)]
    | _ => []
  match lead.call2 with
  | .empty =>
      ⟨db, [("call2_scheduled", lead.id)],
        wOps ++ [.sheetWrite lead.id "Call_2_Time" (c1 + 7200)
            (wr "Call_2_Time" (c1 + 7200)),
          .dispatch lead.id "call2_scheduled" (c1 + 7200)]⟩
  | .bad => ⟨db, [], wOps⟩
  | .ok t2 =>
      if t2 < now then
        ruleStep lead.id "call2_due" t2 now true ⟨db, [], wOps⟩
      else ⟨db, [], wOps⟩

/-- `ReminderService._handle_call2_done`: the same two-phase pattern as
`_handle_call1_done` with `Call_2_Time`/`Call_3_Time`, a 86400-second delay
and the `call3_scheduled`/`call3_due` types. -/
def handleCall2Done (db : List Entry) (lead : Lead) (now : Int)
    (wr : String → Int → Bool) : PassOut :=
  let c2 : Int := match lead.call2 with
    | .empty => now
    | .bad => now
    | .ok t => t
  let wOps : List Op := match lead.call2 with
    | .empty => [.sheetWrite lead.id "Call_2_Time" now (wr "Call_2_Time" now)]
    | _ => []
  match lead.call3 with
  | .empty =>
      ⟨db, [("call3_scheduled", lead.id)],
        wOps ++ [.sheetWrite lead.id "Call_3_Time" (c2 + 86400)
            (wr "Call_3_Time" (c2 + 86400)),
          .dispatch lead.id "call3_scheduled" (c2 + 86400)]⟩
  | .bad => ⟨db, [], wOps⟩
  | .ok t3 =>
      if t3 < now then
        ruleStep lead.id "call3_due" t3 now true ⟨db, [], wOps⟩
      else ⟨db, [], wOps⟩

/-- `ReminderService._handle_first_class_pending`: two windowed rules off
`first_class_date`; `23 ≤ hours_until ≤ 25` and `1.5 ≤ hours_until ≤ 2.5`
become exact whole-second bounds. -/
def handleFirstClassPending (db : List Entry) (lead : Lead) (now : Int) :
    PassOut :=
  match lead.first_class with
  | .empty => ⟨db, [], []⟩
  | .bad => ⟨db, [], []⟩
  | .ok fc =>
      let st1 := ruleStep lead.id "first_class_24h" (fc - 86400) now
        (decide (82800 ≤ fc - now ∧ fc - now ≤ 90000)) ⟨db, [], []⟩
      ruleStep lead.id "first_class_2h" (fc - 7200) now
        (decide (5400 ≤ fc - now ∧ fc - now ≤ 9000)) st1

/-- `ReminderService._handle_did_not_attend`: an unconditional rule whose
ledger `scheduled_time` is `format_datetime(now_utc())`, i.e. the current poll
instant, not a value derived from the lead. -/
def handleDidNotAttend (db : List Entry) (lead : Lead) (now : Int) : PassOut :=
  ruleStep lead.id "did_not_attend" now now true ⟨db, [], []⟩

/-- Python `str.strip` (and SQL `TRIM`): remove surrounding whitespace. -/
def pyStrip (s : String) : String :=
  ⟨((s.data.dropWhile Char.isWhitespace).reverse.dropWhile
    Char.isWhitespace).reverse⟩

/-- Python `str.lower` (and SQL `LOWER`) on the ASCII names this system
compares. -/
def pyLower (s : String) : String :=
  ⟨s.data.map Char.toLower⟩

/-- `database.get_seller_by_name`: empty or whitespace-only name yields none;
otherwise the SQL match `LOWER(TRIM(seller_name)) = LOWER(TRIM(?))` on the
stripped argument, i.e. a case-insensitive trimmed comparison. -/
def get_seller_by_name (sellers : List SellerRow) (name : String) :
    Option SellerRow :=
  if pyStrip name = "" then none
  else sellers.find? (fun s =>
    pyLower (pyStrip s.seller_name) == pyLower (pyStrip name))

/-- The seller lookup used by every `_send_*` routine of `ReminderService`:
`next((s for s in sellers if s.get("full_name") == seller_name or
s.get("username") == seller_name), None)` over the rows of `get_all_sellers`.
The rows come from the `sellers` table, whose dictionaries carry no
`full_name` or `username` key, so both `get` calls yield `None`. -/
def reminderSellerMatch (s : SellerRow) (seller_name : String) : Bool :=
  sellerRowGet s "full_name" == some seller_name ||
    sellerRowGet s "username" == some seller_name

/-- `next(..., None)` over the seller rows with `reminderSellerMatch`. -/
def resolveReminderSeller (sellers : List SellerRow) (seller_name : String) :
    Option SellerRow :=
  sellers.find? (fun s => reminderSellerMatch s seller_name)

/-- `ReminderService._send_call1_reminder` recipient resolution: the Telegram
id the reminder is delivered to, or `none` when the reminder is dropped with a
logged warning. -/
def sendCall1ReminderRecipient (sellers : List SellerRow) (lead : Lead) :
    Option Int :=
  match resolveReminderSeller sellers lead.seller with
  | none => none
  | some s => s.telegram_id

/-- `database.update_lead_state`: INSERT OR REPLACE keyed on `lead_id`,
stamping both timestamps with now. -/
def updateLeadState (states : List StateRec) (lid status : String) (now : Int) :
    List StateRec :=
  states.filter (fun r => r.lead_id ≠ lid) ++ [⟨lid, status, now, now⟩]

/-- `database.get_lead_state`: SELECT by primary key. -/
def getLeadState (states : List StateRec) (lid : String) : Option StateRec :=
  states.find? (fun r => r.lead_id == lid)

/-- State threaded through one reminder pass over a batch: ledger, lead-state
table, the accumulating `reminders_sent` return value, and the side-effect
trace. -/
structure EngSt where
  db : List Entry
  states : List StateRec
  events : List (String × String)
  trace : List Op
deriving DecidableEq

/-- `ReminderService.process_lead`: skip leads with empty id or status, write
the lead-state heartbeat (`update_lead_state(lead_id, status)`), then branch on
the status constants.  `fcp` and `dna` stand for `STATUS_FIRST_CLASS_PENDING`
and `STATUS_DID_NOT_ATTEND`, which `src/services/reminders.py` imports from
`src/config.py` although `config.py` defines neither; they are therefore taken
as unconstrained parameters here. -/
def processOneLead (fcp dna : String) (wr : String → Int → Bool) (st : EngSt)
    (lead : Lead) (now : Int) : EngSt :=
  if lead.id = "" ∨ lead.status = "" then st
  else
    let st' : EngSt :=
      { st with
        states := updateLeadState st.states lead.id lead.status now,
        trace := st.trace ++ [.stateWrite lead.id lead.status] }
    let r : PassOut :=
      if lead.status = "Call #1 Needed" then handleCall1Needed st'.db lead now
      else if lead.status = "Call #1 Done" then handleCall1Done st'.db lead now wr
      else if lead.status = "Call #2 Done" then handleCall2Done st'.db lead now wr
      else if lead.status = fcp then handleFirstClassPending st'.db lead now
      else if lead.status = dna then handleDidNotAttend st'.db lead now
      else ⟨st'.db, [], []⟩
    { st' with
      db := r.db,
      events := st'.events ++ r.sent,
      trace := st'.trace ++ r.trace }

/-- The loop body of `ReminderService.process_all_leads`.  The `try` of that
method wraps the whole `for` loop: an exception raised while processing one
lead (modelled by the oracle `fail` on the lead id, standing for a transient
database or I/O error at the start of `process_lead`) is caught at batch
level, after which the method returns `[]`; the side effects of the leads
already processed persist. -/
def processAllLeadsGo (fail : Lead → Bool) (fcp dna : String)
    (wr : String → Int → Bool) (now : Int) :
    List Lead → EngSt → List (String × String) × EngSt
  | [], st => (st.events, st)
  | l :: ls, st =>
      if fail l then ([], st)
      else processAllLeadsGo fail fcp dna wr now ls (processOneLead fcp dna wr st l now)

/-- `ReminderService.process_all_leads` over a fetched snapshot, starting with
an empty `reminders_sent` accumulator. -/
def process_all_leads (fail : Lead → Bool) (fcp dna : String)
    (wr : String → Int → Bool) (db : List Entry) (states : List StateRec)
    (leads : List Lead) (now : Int) : List (String × String) × EngSt :=
  processAllLeadsGo fail fcp dna wr now leads ⟨db, states, [], []⟩

/-- `LeadMonitorService._handle_new_lead`: return early (no side effects) when
the lead has no assigned seller, the seller is not in the registry, or the
seller has no linked Telegram id (`if not telegram_id` is also true for id 0);
otherwise, when the status is empty or `New Lead`, write the bootstrap update
(`Status` to `Call #1 Needed` plus a `Call_1_Time` stamp) and then send the
new-lead notification. -/
def handleNewLead (sellers : List SellerRow) (lead : Lead) (now : Int) :
    List Op :=
  let seller_name := pyStrip lead.seller
  if seller_name = "" then []
  else
    match get_seller_by_name sellers seller_name with
    | none => []
    | some s =>
        match s.telegram_id with
        | none => []
        | some tid =>
            if tid = 0 then []
            else
              let status := pyStrip lead.status
              if status = "New Lead" ∨ status = "" then
                [.updateLead lead.id "Call #1 Needed" now,
                  .notifyNewLead tid lead.id]
              else [.notifyNewLead tid lead.id]

/-- The loop body of `LeadMonitorService.check_for_new_leads`: skip empty ids;
when no lead-state row exists, run `_handle_new_lead`, upsert the lead state
with the snapshot status, and append the lead to the returned `new_leads`
list. -/
def checkForNewLeadsGo (sellers : List SellerRow) (now : Int) :
    List Lead → List StateRec → List String → List Op →
      List String × List StateRec × List Op
  | [], states, events, trace => (events, states, trace)
  | lead :: rest, states, events, trace =>
      if lead.id = "" then checkForNewLeadsGo sellers now rest states events trace
      else
        match getLeadState states lead.id with
        | some _ => checkForNewLeadsGo sellers now rest states events trace
        | none =>
            checkForNewLeadsGo sellers now rest
              (updateLeadState states lead.id lead.status now)
              (events ++ [lead.id]) (trace ++ handleNewLead sellers lead now)

/-- `LeadMonitorService.check_for_new_leads` over one fetched snapshot. -/
def check_for_new_leads (sellers : List SellerRow) (states : List StateRec)
    (leads : List Lead) (now : Int) : List String × List StateRec × List Op :=
  checkForNewLeadsGo sellers now leads states [] []

/-- `n` consecutive polls of `check_for_new_leads` over the same snapshot
(no intervening external change), accumulating emitted new-lead events and
side effects. -/
def iterateNewLeadPolls (sellers : List SellerRow) (leads : List Lead)
    (now : Int) : Nat → List StateRec → List String × List StateRec × List Op
  | 0, states => ([], states, [])
  | n + 1, states =>
      let r := check_for_new_leads sellers states leads now
      let r2 := iterateNewLeadPolls sellers leads now n r.2.1
      (r.1 ++ r2.1, r2.2.1, r.2.2 ++ r2.2.2)

/-- `LeadMonitorService._handle_status_change` up to its first side effect.
It returns silently when the lead has no assigned seller, the seller is not in
the registry, or the seller has no linked Telegram id.  Otherwise it calls
`_send_status_change_notification`, whose body reads `STATUS_CALL1_DONE`,
`STATUS_CALL2_DONE`, `STATUS_CALL3_DONE`, `STATUS_FIRST_CLASS_SCHEDULED`,
`STATUS_FIRST_CLASS_CONFIRMED` and `STATUS_FOLLOWUP_NEEDED` — names that
`src/services/lead_monitor.py` never imports — so that call raises a
`NameError`, modelled as `Except.error`. -/
def handleStatusChangeMonitor (sellers : List SellerRow) (seller_field : String) :
    Except Unit Unit :=
  let seller_name := pyStrip seller_field
  if seller_name = "" then .ok ()
  else
    match get_seller_by_name sellers seller_name with
    | none => .ok ()
    | some s =>
        match s.telegram_id with
        | none => .ok ()
        | some tid => if tid = 0 then .ok () else .error ()

/-- The loop body of `LeadMonitorService.check_for_status_changes`: skip empty
ids and leads without a state row; when the snapshot status is non-empty and
differs from `last_status`, run `_handle_status_change`, upsert the state and
append to `changed_leads`.  An exception from the handler is caught by the
method-level `try`, which then returns `[]`, keeping the state upserts already
committed. -/
def checkForStatusChangesGo (sellers : List SellerRow) (now : Int) :
    List Lead → List StateRec → List String → List String × List StateRec
  | [], states, events => (events, states)
  | lead :: rest, states, events =>
      if lead.id = "" then checkForStatusChangesGo sellers now rest states events
      else
        match getLeadState states lead.id with
        | none => checkForStatusChangesGo sellers now rest states events
        | some st =>
            if lead.status ≠ st.last_status ∧ lead.status ≠ "" then
              match handleStatusChangeMonitor sellers lead.seller with
              | .error _ => ([], states)
              | .ok _ =>
                  checkForStatusChangesGo sellers now rest
                    (updateLeadState states lead.id lead.status now)
                    (events ++ [lead.id])
            else checkForStatusChangesGo sellers now rest states events

/-- `LeadMonitorService.check_for_status_changes` over one snapshot. -/
def check_for_status_changes (sellers : List SellerRow) (states : List StateRec)
    (leads : List Lead) (now : Int) : List String × List StateRec :=
  checkForStatusChangesGo sellers now leads states []

/-- One scheduler tick in which the change-detection job processes the
snapshot before the reminder job: returns the emitted status-change events and
the reminder pass state. -/
def detectionThenReminder (sellers : List SellerRow) (fcp dna : String)
    (wr : String → Int → Bool) (db : List Entry) (states : List StateRec)
    (lead : Lead) (now : Int) : List String × EngSt :=
  let r := check_for_status_changes sellers states [lead] now
  (r.1, processOneLead fcp dna wr ⟨db, r.2, [], []⟩ lead now)

/-- One scheduler tick in which the reminder job processes the snapshot before
the change-detection job. -/
def reminderThenDetection (sellers : List SellerRow) (fcp dna : String)
    (wr : String → Int → Bool) (db : List Entry) (states : List StateRec)
    (lead : Lead) (now : Int) : List String × EngSt :=
  let st := processOneLead fcp dna wr ⟨db, states, [], []⟩ lead now
  let r := check_for_status_changes sellers st.states [lead] now
  (r.1, { st with states := r.2 })

/-- Is this op a dispatch of one of the three call-1 reminder types? -/
def isCall1Dispatch (o : Op) : Bool :=
  match o with
  | .dispatch _ ty _ =>
      ty == "call1_1h" || ty == "call1_2h" || ty == "call1_12h"
  | _ => false

/-- Is this op the bootstrap `update_lead` write (Status plus Call_1_Time)? -/
def isUpdateLeadOp (o : Op) : Bool :=
  match o with
  | .updateLead _ _ _ => true
  | _ => false

/-- Number of dispatch attempts recorded for one
`(lead_id, reminder_type, scheduled_time)` triple. -/
def dispCount (tr : List Op) (lid ty : String) (sched : Int) : Nat :=
  (tr.filter (fun o => o == Op.dispatch lid ty sched)).length

/-- Every ledger row has `status = sent` (true of every database the engine
itself can produce, since `mark_reminder_sent` is the only writer of the
`reminders` table in the repository). -/
def allSent (db : List Entry) : Bool :=
  db.all (fun e => e.status == "sent")

/-- No two ledger rows share a `(lead_id, reminder_type, scheduled_time)`
triple — the UNIQUE constraint of the `reminders` table. -/
def uniqueTriples : List Entry → Bool
  | [] => true
  | e :: r =>
      !(r.any (fun x => matchesTriple x e.lead_id e.reminder_type e.scheduled_time))
        && uniqueTriples r

/-- Repeated sequential reminder passes of `_handle_call1_needed` over the
same snapshot lead, one per poll instant, accumulating the ledger and the
trace. -/
def runPasses (lead : Lead) : List Int → PassOut → PassOut
  | [], st => st
  | t :: ts, st =>
      let r := handleCall1Needed st.db lead t
      runPasses lead ts ⟨r.db, st.sent ++ r.sent, st.trace ++ r.trace⟩

/-- A Python `datetime` value (UTC-aware throughout the engine): calendar
fields plus microseconds. -/
structure PyDateTime where
  year : Nat
  month : Nat
  day : Nat
  hour : Nat
  minute : Nat
  second : Nat
  usec : Nat
deriving DecidableEq

/-- Gregorian leap-year rule, as used by Python `datetime`. -/
def isLeapYear (y : Nat) : Bool :=
  y % 4 == 0 && (y % 100 != 0 || y % 400 == 0)

/-- Days in a month of a given year. -/
def daysInMonth (y m : Nat) : Nat :=
  if m == 2 then (if isLeapYear y then 29 else 28)
  else if m == 4 || m == 6 || m == 9 || m == 11 then 30
  else 31

/-- The validity envelope enforced by the Python `datetime` constructor:
`MINYEAR = 1`, `MAXYEAR = 9999`, calendar-valid month/day, and in-range time
fields. -/
def validDT (d : PyDateTime) : Bool :=
  1 ≤ d.year && d.year ≤ 9999 && 1 ≤ d.month && d.month ≤ 12 &&
    1 ≤ d.day && d.day ≤ daysInMonth d.year d.month &&
    d.hour ≤ 23 && d.minute ≤ 59 && d.second ≤ 59 && d.usec ≤ 999999

/-- Decimal digit as a character. -/
def digitChar (n : Nat) : Char :=
  match n with
  | 0 => '0' | 1 => '1' | 2 => '2' | 3 => '3' | 4 => '4'
  | 5 => '5' | 6 => '6' | 7 => '7' | 8 => '8' | 9 => '9'
  | _ => '*'

/-- Two-digit zero-padded rendering (strftime `%m` `%d` `%H` `%M` `%S`). -/
def pad2 (n : Nat) : List Char :=
  [digitChar (n / 10), digitChar (n % 10)]

/-- Four-digit zero-padded rendering (strftime `%Y` as documented by
CPython: `0001`, ..., `9999`). -/
def pad4 (n : Nat) : List Char :=
  [digitChar (n / 1000), digitChar (n / 100 % 10), digitChar (n / 10 % 10),
    digitChar (n % 10)]

/-- `time_utils.format_datetime` with the default pattern
`%Y-%m-%d %H:%M:%S`: the argument is converted to UTC (a no-op for the
UTC-aware values this development quantifies over) and rendered without
microseconds.  Strings are modelled as character lists. -/
def format_datetime (d : PyDateTime) : List Char :=
  pad4 d.year ++ '-' :: (pad2 d.month ++ '-' :: (pad2 d.day ++ ' ' ::
    (pad2 d.hour ++ ':' :: (pad2 d.minute ++ ':' :: pad2 d.second))))

/-- Read exactly `k` decimal digits (strptime `%Y`, which matches four). -/
def readFix : Nat → List Char → Nat → Option (Nat × List Char)
  | 0, rest, acc => some (acc, rest)
  | _ + 1, [], _ => none
  | k + 1, c :: rest, acc =>
      if c.isDigit then readFix k rest (acc * 10 + (c.toNat - 48)) else none

/-- Read one or two decimal digits, greedily (strptime `%m` `%d` `%H` `%M`
`%S`, whose regexes accept one or two digits and match greedily). -/
def read12 : List Char → Option (Nat × List Char)
  | [] => none
  | c :: rest =>
      if c.isDigit then
        match rest with
        | c2 :: rest2 =>
            if c2.isDigit then some ((c.toNat - 48) * 10 + (c2.toNat - 48), rest2)
            else some (c.toNat - 48, rest)
        | [] => some (c.toNat - 48, [])
      else none

/-- The datetime fields a strptime directive can set here. -/
inductive TField where
  | fY : TField
  | fM : TField
  | fD : TField
  | fH : TField
  | fMin : TField
  | fS : TField
deriving DecidableEq

/-- One token of a strptime pattern: a literal character or a field
directive. -/
inductive FTok where
  | lit (c : Char) : FTok
  | fld (f : TField) : FTok
deriving DecidableEq

/-- Field accumulator with the strptime defaults `1900-01-01 00:00:00`. -/
structure RawFields where
  y : Nat
  m : Nat
  d : Nat
  h : Nat
  mi : Nat
  s : Nat
deriving DecidableEq

/-- Store a parsed directive value. -/
def setField (r : RawFields) (f : TField) (v : Nat) : RawFields :=
  match f with
  | .fY => { r with y := v }
  | .fM => { r with m := v }
  | .fD => { r with d := v }
  | .fH => { r with h := v }
  | .fMin => { r with mi := v }
  | .fS => { r with s := v }

/-- Match a strptime pattern against the whole input (strptime requires the
full string to match). -/
def runFmt : List FTok → List Char → RawFields → Option RawFields
  | [], [], r => some r
  | [], _ :: _, _ => none
  | .lit _ :: _, [], _ => none
  | .lit c :: ts, x :: xs, r => if x == c then runFmt ts xs r else none
  | .fld f :: ts, xs, r =>
      match (match f with | .fY => readFix 4 xs 0 | _ => read12 xs) with
      | none => none
      | some (v, rest) => runFmt ts rest (setField r f v)

/-- Pattern `%Y-%m-%d %H:%M:%S`. -/
def fmtYmdHMS : List FTok :=
  [.fld .fY, .lit '-', .fld .fM, .lit '-', .fld .fD, .lit ' ',
    .fld .fH, .lit ':', .fld .fMin, .lit ':', .fld .fS]

/-- Pattern `%Y-%m-%d %H:%M`. -/
def fmtYmdHM : List FTok :=
  [.fld .fY, .lit '-', .fld .fM, .lit '-', .fld .fD, .lit ' ',
    .fld .fH, .lit ':', .fld .fMin]

/-- Pattern `%Y-%m-%d`. -/
def fmtYmd : List FTok :=
  [.fld .fY, .lit '-', .fld .fM, .lit '-', .fld .fD]

/-- Pattern `%d/%m/%Y %H:%M:%S`. -/
def fmtDmyHMS : List FTok :=
  [.fld .fD, .lit '/', .fld .fM, .lit '/', .fld .fY, .lit ' ',
    .fld .fH, .lit ':', .fld .fMin, .lit ':', .fld .fS]

/-- Pattern `%d/%m/%Y %H:%M`. -/
def fmtDmyHM : List FTok :=
  [.fld .fD, .lit '/', .fld .fM, .lit '/', .fld .fY, .lit ' ',
    .fld .fH, .lit ':', .fld .fMin]

/-- Pattern `%d/%m/%Y`. -/
def fmtDmy : List FTok :=
  [.fld .fD, .lit '/', .fld .fM, .lit '/', .fld .fY]

/-- Pattern `%m/%d/%Y %H:%M:%S`. -/
def fmtMdyHMS : List FTok :=
  [.fld .fM, .lit '/', .fld .fD, .lit '/', .fld .fY, .lit ' ',
    .fld .fH, .lit ':', .fld .fMin, .lit ':', .fld .fS]

/-- Pattern `%m/%d/%Y %H:%M`. -/
def fmtMdyHM : List FTok :=
  [.fld .fM, .lit '/', .fld .fD, .lit '/', .fld .fY, .lit ' ',
    .fld .fH, .lit ':', .fld .fMin]

/-- Pattern `%m/%d/%Y`. -/
def fmtMdy : List FTok :=
  [.fld .fM, .lit '/', .fld .fD, .lit '/', .fld .fY]

/-- The format list of `time_utils.parse_datetime`, in source order. -/
def formatsList : List (List FTok) :=
  [fmtYmdHMS, fmtYmdHM, fmtYmd, fmtDmyHMS, fmtDmyHM, fmtDmy,
    fmtMdyHMS, fmtMdyHM, fmtMdy]

/-- The Python `datetime(...)` constructor applied to matched strptime
fields: rejects out-of-range values (this is what turns e.g. February 30 into
a `ValueError`, making `parse_datetime` fall through to the next format). -/
def rawToDT (r : RawFields) : Option PyDateTime :=
  let d : PyDateTime := ⟨r.y, r.m, r.d, r.h, r.mi, r.s, 0⟩
  if validDT d then some d else none

/-- `for fmt in formats: try strptime ... except ValueError: continue`. -/
def tryFormats : List (List FTok) → List Char → Option PyDateTime
  | [], _ => none
  | f :: fs, s =>
      match runFmt f s ⟨1900, 1, 1, 0, 0, 0⟩ with
      | some r =>
          match rawToDT r with
          | some d => some d
          | none => tryFormats fs s
      | none => tryFormats fs s

/-- `str.strip` on a character list. -/
def trimChars (s : List Char) : List Char :=
  ((s.dropWhile Char.isWhitespace).reverse.dropWhile Char.isWhitespace).reverse

/-- `dt_string.replace("Z", "+00:00")` on a character list. -/
def replaceZ (s : List Char) : List Char :=
  s.flatMap (fun c => if c == 'Z' then ['+', '0', '0', ':', '0', '0'] else [c])

/-- The `datetime.fromisoformat` fallback of `parse_datetime`, for the
ISO-8601 subset relevant to this repository: `YYYY-MM-DD`, optionally followed
by a `T` or space separator, `HH:MM`, optional `:SS`, optional `.ffffff`
microseconds, and an optional `+00:00` UTC offset (offsets other than UTC do
not occur in this system, whose writers only emit `format_datetime` output).
Every theorem below exercises only strings matched by the first strptime
format, so this fallback is never reached there. -/
def parseIsoTail (d : PyDateTime) : List Char → Option PyDateTime
  | [] => some d
  | sep :: rest =>
      if sep == 'T' || sep == ' ' then
        match readFix 2 rest 0 with
        | none => none
        | some (h, rest1) =>
            match rest1 with
            | ':' :: rest2 =>
                match readFix 2 rest2 0 with
                | none => none
                | some (mi, rest3) =>
                    let withHM : PyDateTime := { d with hour := h, minute := mi }
                    match rest3 with
                    | [] => if validDT withHM then some withHM else none
                    | ':' :: rest4 =>
                        match readFix 2 rest4 0 with
                        | none => none
                        | some (s, rest5) =>
                            let withS : PyDateTime := { withHM with second := s }
                            match rest5 with
                            | [] => if validDT withS then some withS else none
                            | '.' :: rest6 =>
                                match readFix 6 rest6 0 with
                                | none => none
                                | some (us, rest7) =>
                                    let withUs : PyDateTime :=
                                      { withS with usec := us }
                                    match rest7 with
                                    | [] =>
                                        if validDT withUs then some withUs
                                        else none
                                    | '+' :: '0' :: '0' :: ':' :: '0' :: '0' :: [] =>
                                        if validDT withUs then some withUs
                                        else none
                                    | _ => none
                            | '+' :: '0' :: '0' :: ':' :: '0' :: '0' :: [] =>
                                if validDT withS then some withS else none
                            | _ => none
                    | '+' :: '0' :: '0' :: ':' :: '0' :: '0' :: [] =>
                        if validDT withHM then some withHM else none
                    | _ => none
            | _ => none
      else none

/-- `datetime.fromisoformat` on the subset described at `parseIsoTail`. -/
def parseIso (s : List Char) : Option PyDateTime :=
  match readFix 4 s 0 with
  | none => none
  | some (y, rest) =>
      match rest with
      | '-' :: rest1 =>
          match readFix 2 rest1 0 with
          | none => none
          | some (m, rest2) =>
              match rest2 with
              | '-' :: rest3 =>
                  match readFix 2 rest3 0 with
                  | none => none
                  | some (dd, rest4) =>
                      let d0 : PyDateTime := ⟨y, m, dd, 0, 0, 0, 0⟩
                      match parseIsoTail d0 rest4 with
                      | some d => if validDT d then some d else none
                      | none => none
              | _ => none
      | _ => none

/-- `time_utils.parse_datetime`: `None` for empty or whitespace-only input;
otherwise strip, try the nine strptime formats in order, then fall back to
`fromisoformat` after replacing `Z` with `+00:00`.  Any naive result is
localized to UTC, so the returned value is a UTC-aware datetime with the
parsed fields. -/
def parse_datetime (s : List Char) : Option PyDateTime :=
  let t := trimChars s
  if t.isEmpty then none
  else
    match tryFormats formatsList t with
    | some d => some d
    | none => parseIso (replaceZ t)

/-- The trace segment one guarded rule block contributes: the existence query
always runs when the rule is due; dispatch and insert follow only when the
query reported unsent. -/
def ruleSeg (lid ty : String) (sched : Int) (due b : Bool) : List Op :=
  if due then
    (if b then [.queryWasSent lid ty sched]
      else [.queryWasSent lid ty sched, .dispatch lid ty sched,
        .insertLedger lid ty sched])
  else []

/-- The ledger rows one guarded rule block appends. -/
def ruleRows (lid ty : String) (sched now : Int) (due b trip : Bool) :
    List Entry :=
  if due && !b && !trip then [⟨lid, ty, sched, some now, "sent", now⟩] else []

/-- The `reminders_sent` entries one guarded rule block appends. -/
def ruleSent (ty lid : String) (due b : Bool) : List (String × String) :=
  if due && !b then [(ty, lid)] else []

/-- Relation between a pre-state ledger, a post-state ledger and the trace of
the steps in between: sent rows persist, each triple is dispatched at most
once more and only if not already sent, a dispatch leaves the triple sent, and
uniqueness is preserved — all under the engine-reachable `allSent`
precondition. -/
def SpecRel (db db2 : List Entry) (tr : List Op) : Prop :=
  allSent db = true →
    (allSent db2 = true ∧
      (uniqueTriples db = true → uniqueTriples db2 = true) ∧
      ∀ l t s,
        dispCount tr l t s ≤ (if was_reminder_sent db l t s then 0 else 1) ∧
        (was_reminder_sent db l t s = true → was_reminder_sent db2 l t s = true) ∧
        (1 ≤ dispCount tr l t s → was_reminder_sent db2 l t s = true) ∧
        (was_reminder_sent db2 l t s = true →
          was_reminder_sent db l t s = true ∨ 1 ≤ dispCount tr l t s))

theorem matchesTriple_iff (e : Entry) (l t : String) (s : Int) :
    matchesTriple e l t s = true ↔
      e.lead_id = l ∧ e.reminder_type = t ∧ e.scheduled_time = s := by
  simp [matchesTriple, and_assoc]

theorem dispCount_append (a b : List Op) (l t : String) (s : Int) :
    dispCount (a ++ b) l t s = dispCount a l t s + dispCount b l t s := by
  simp [dispCount, List.filter_append]

theorem was_append_single (db : List Entry) (e : Entry) (l t : String) (s : Int) :
    was_reminder_sent (db ++ [e]) l t s =
      (was_reminder_sent db l t s ||
        (matchesTriple e l t s && e.status == "sent")) := by
  simp [was_reminder_sent, List.any_append]

theorem tripIn_append_single (db : List Entry) (e : Entry) (l t : String)
    (s : Int) :
    tripInDb (db ++ [e]) l t s =
      (tripInDb db l t s || matchesTriple e l t s) := by
  simp [tripInDb, List.any_append]

theorem allSent_tripIn_eq_was (db : List Entry) (h : allSent db = true)
    (l t : String) (s : Int) :
    tripInDb db l t s = was_reminder_sent db l t s := by
  induction db with
  | nil => rfl
  | cons e r ih =>
      simp only [allSent, List.all_cons, Bool.and_eq_true] at h
      simp only [tripInDb, was_reminder_sent, List.any_cons] at *
      rw [h.1, Bool.and_true]
      rw [ih h.2]

theorem allSent_append_single (db : List Entry) (e : Entry)
    (h : allSent db = true) (he : e.status = "sent") :
    allSent (db ++ [e]) = true := by
  simp only [allSent, List.all_append, List.all_cons, List.all_nil,
    Bool.and_eq_true, beq_iff_eq, Bool.and_true] at *
  exact ⟨h, he⟩

theorem uniqueTriples_append_single (db : List Entry) (e : Entry)
    (h : uniqueTriples db = true)
    (hfresh : tripInDb db e.lead_id e.reminder_type e.scheduled_time = false) :
    uniqueTriples (db ++ [e]) = true := by
  induction db with
  | nil => simp [uniqueTriples]
  | cons x r ih =>
      simp only [uniqueTriples, Bool.and_eq_true, Bool.not_eq_true',
        List.any_eq_false] at h
      simp only [tripInDb, List.any_cons, Bool.or_eq_false_iff] at hfresh
      simp only [List.cons_append, uniqueTriples, Bool.and_eq_true,
        Bool.not_eq_true', List.any_eq_false]
      refine ⟨?_, ?_⟩
      · intro y hy
        rcases List.mem_append.mp hy with hy2 | hy2
        · exact h.1 y hy2
        · rcases List.mem_singleton.mp hy2 with rfl
          intro hb
          rcases (matchesTriple_iff _ _ _ _).mp hb with ⟨h1, h2, h3⟩
          have hx : matchesTriple x y.lead_id y.reminder_type y.scheduled_time
              = true :=
            (matchesTriple_iff _ _ _ _).mpr ⟨h1.symm, h2.symm, h3.symm⟩
          rw [hfresh.1] at hx
          exact Bool.false_ne_true hx
      · refine ih h.2 ?_
        simp only [tripInDb, List.any_eq_false]
        exact List.any_eq_false.mp hfresh.2

theorem ruleStep_char (lid ty : String) (sched now : Int) (due : Bool)
    (st : PassOut) :
    ruleStep lid ty sched now due st =
      ⟨st.db ++ ruleRows lid ty sched now due
          (was_reminder_sent st.db lid ty sched) (tripInDb st.db lid ty sched),
        st.sent ++ ruleSent ty lid due (was_reminder_sent st.db lid ty sched),
        st.trace ++ ruleSeg lid ty sched due
          (was_reminder_sent st.db lid ty sched)⟩ := by
  cases due with
  | false => simp [ruleStep, ruleRows, ruleSent, ruleSeg]
  | true =>
      cases hb : was_reminder_sent st.db lid ty sched with
      | true => simp [ruleStep, ruleRows, ruleSent, ruleSeg, hb]
      | false =>
          cases ht : tripInDb st.db lid ty sched with
          | true =>
              simp [ruleStep, ruleRows, ruleSent, ruleSeg, hb,
                mark_reminder_sent, ht]
          | false =>
              simp [ruleStep, ruleRows, ruleSent, ruleSeg, hb,
                mark_reminder_sent, ht]

theorem matchesTriple_ne_ty (lid ty : String) (sched : Int) (sent_t : Option Int)
    (stat : String) (ca : Int) (l t : String) (s : Int) (h : ty ≠ t) :
    matchesTriple ⟨lid, ty, sched, sent_t, stat, ca⟩ l t s = false := by
  cases hm : matchesTriple ⟨lid, ty, sched, sent_t, stat, ca⟩ l t s with
  | false => rfl
  | true => exact absurd ((matchesTriple_iff _ _ _ _).mp hm).2.1 h

theorem was_append_rows (db : List Entry) (lid ty : String) (sched now : Int)
    (due b trip : Bool) (l t : String) (s : Int) (h : ty ≠ t) :
    was_reminder_sent (db ++ ruleRows lid ty sched now due b trip) l t s =
      was_reminder_sent db l t s := by
  unfold ruleRows
  by_cases hc : (due && !b && !trip) = true
  · rw [if_pos hc, was_append_single, matchesTriple_ne_ty _ _ _ _ _ _ _ _ _ h]
    simp
  · rw [if_neg hc]
    simp

theorem tripIn_append_rows (db : List Entry) (lid ty : String) (sched now : Int)
    (due b trip : Bool) (l t : String) (s : Int) (h : ty ≠ t) :
    tripInDb (db ++ ruleRows lid ty sched now due b trip) l t s =
      tripInDb db l t s := by
  unfold ruleRows
  by_cases hc : (due && !b && !trip) = true
  · rw [if_pos hc, tripIn_append_single, matchesTriple_ne_ty _ _ _ _ _ _ _ _ _ h]
    simp
  · rw [if_neg hc]
    simp

theorem SpecRel_refl (db : List Entry) : SpecRel db db [] := by
  intro hAll
  refine ⟨hAll, fun h => h, fun l t s => ?_⟩
  refine ⟨by simp [dispCount], fun h => h, ?_, fun h => Or.inl h⟩
  intro h
  simp [dispCount] at h

theorem SpecRel_comp (a b c : List Entry) (t1 t2 : List Op)
    (h1 : SpecRel a b t1) (h2 : SpecRel b c t2) : SpecRel a c (t1 ++ t2) := by
  intro hAll
  obtain ⟨hb, hu1, hf1⟩ := h1 hAll
  obtain ⟨hc, hu2, hf2⟩ := h2 hb
  refine ⟨hc, fun h => hu2 (hu1 h), fun l t s => ?_⟩
  obtain ⟨c1le, mono1, d1sent, sent1d⟩ := hf1 l t s
  obtain ⟨c2le, mono2, d2sent, sent2d⟩ := hf2 l t s
  rw [dispCount_append]
  cases hwa : was_reminder_sent a l t s with
  | true =>
      have hd1 : dispCount t1 l t s = 0 := by rw [hwa] at c1le; simpa using c1le
      have hwb := mono1 hwa
      have hd2 : dispCount t2 l t s = 0 := by rw [hwb] at c2le; simpa using c2le
      exact ⟨by simp [hd1, hd2], fun _ => mono2 hwb,
        fun h => absurd h (by omega), fun _ => Or.inl rfl⟩
  | false =>
      rw [hwa] at c1le sent1d
      have c1le2 : dispCount t1 l t s ≤ 1 := by simpa using c1le
      cases hwb : was_reminder_sent b l t s with
      | true =>
          have hd2 : dispCount t2 l t s = 0 := by
            rw [hwb] at c2le; simpa using c2le
          have hd1 : 1 ≤ dispCount t1 l t s := by
            rcases sent1d hwb with h | h
            · exact (Bool.false_ne_true h).elim
            · exact h
          refine ⟨by rw [if_neg (by simp)]; omega,
            fun h => absurd h (by simp), fun _ => mono2 hwb, ?_⟩
          intro _
          exact Or.inr (by omega)
      | false =>
          have hd1 : dispCount t1 l t s = 0 := by
            by_contra hne
            have h1 : 1 ≤ dispCount t1 l t s := Nat.one_le_iff_ne_zero.mpr hne
            have h2 := d1sent h1
            rw [hwb] at h2
            exact Bool.false_ne_true h2
          rw [hwb] at c2le sent2d
          have c2le2 : dispCount t2 l t s ≤ 1 := by simpa using c2le
          refine ⟨by rw [if_neg (by simp)]; omega,
            fun h => absurd h (by simp), ?_, ?_⟩
          · intro h
            exact d2sent (by omega)
          · intro h
            rcases sent2d h with h2 | h2
            · exact (Bool.false_ne_true h2).elim
            · exact Or.inr (by omega)

theorem ruleSeg_spec (db : List Entry) (lid ty : String) (sched now : Int)
    (due : Bool) :
    SpecRel db
      (db ++ ruleRows lid ty sched now due (was_reminder_sent db lid ty sched)
        (tripInDb db lid ty sched))
      (ruleSeg lid ty sched due (was_reminder_sent db lid ty sched)) := by
  intro hAll
  have htrip := allSent_tripIn_eq_was db hAll lid ty sched
  cases hb : was_reminder_sent db lid ty sched with
  | true =>
      have hrows :
          ruleRows lid ty sched now due true (tripInDb db lid ty sched) = [] := by
        simp [ruleRows]
      rw [hrows, List.append_nil]
      refine ⟨hAll, fun h => h, fun l t s => ?_⟩
      have hd : dispCount (ruleSeg lid ty sched due true) l t s = 0 := by
        cases due <;> simp [ruleSeg, dispCount]
      rw [hd]
      refine ⟨Nat.zero_le _, fun h => h, fun h => absurd h (by omega),
        fun h => Or.inl h⟩
  | false =>
      have htrip2 : tripInDb db lid ty sched = false := htrip.trans hb
      rw [htrip2]
      cases due with
      | false =>
          simp only [ruleRows, ruleSeg, Bool.false_and, Bool.and_false,
            if_neg (Bool.false_ne_true), List.append_nil]
          refine ⟨hAll, fun h => h, fun l t s => ?_⟩
          refine ⟨by simp [dispCount], fun h => h, ?_, fun h => Or.inl h⟩
          intro h
          simp [dispCount] at h
      | true =>
          have hrows : ruleRows lid ty sched now true false false =
              [⟨lid, ty, sched, some now, "sent", now⟩] := by simp [ruleRows]
          have hseg : ruleSeg lid ty sched true false =
              [Op.queryWasSent lid ty sched, Op.dispatch lid ty sched,
                Op.insertLedger lid ty sched] := by simp [ruleSeg]
          rw [hrows, hseg]
          refine ⟨?_, ?_, fun l t s => ?_⟩
          · exact allSent_append_single db _ hAll rfl
          · intro hu
            exact uniqueTriples_append_single db _ hu htrip2
          · by_cases heq : l = lid ∧ t = ty ∧ s = sched
            · obtain ⟨e1, e2, e3⟩ := heq
              subst e1
              subst e2
              subst e3
              have hd : dispCount
                  [Op.queryWasSent l t s, Op.dispatch l t s, Op.insertLedger l t s]
                  l t s = 1 := by simp [dispCount]
              have hw2 : was_reminder_sent
                  (db ++ [⟨l, t, s, some now, "sent", now⟩]) l t s = true := by
                rw [was_append_single]
                have hmt : matchesTriple ⟨l, t, s, some now, "sent", now⟩ l t s
                    = true := by
                  rw [matchesTriple_iff]
                  exact ⟨rfl, rfl, rfl⟩
                simp [hmt]
              rw [hd, hw2, hb]
              refine ⟨by simp, fun h => rfl, fun _ => rfl, fun _ => Or.inr (by omega)⟩
            · have hd : dispCount
                  [Op.queryWasSent lid ty sched, Op.dispatch lid ty sched,
                    Op.insertLedger lid ty sched] l t s = 0 := by
                simp [dispCount]
                intro h1 h2 h3
                exact heq ⟨h1.symm, h2.symm, h3.symm⟩
              have hm : matchesTriple ⟨lid, ty, sched, some now, "sent", now⟩ l t s
                  = false := by
                cases hmm : matchesTriple ⟨lid, ty, sched, some now, "sent", now⟩
                    l t s with
                | false => rfl
                | true =>
                    rcases (matchesTriple_iff _ _ _ _).mp hmm with ⟨e1, e2, e3⟩
                    exact absurd ⟨e1.symm, e2.symm, e3.symm⟩ heq
              have hw2 : was_reminder_sent
                  (db ++ [⟨lid, ty, sched, some now, "sent", now⟩]) l t s =
                    was_reminder_sent db l t s := by
                rw [was_append_single, hm]
                simp
              rw [hd, hw2]
              refine ⟨Nat.zero_le _, fun h => h, fun h => absurd h (by omega),
                fun h => Or.inl h⟩

/-- Bookkeeping relation: the pass under construction started from ledger
`db0` with trace prefix `tr0`, and the ops appended since then relate the two
ledgers as `SpecRel` describes. -/
def StFrom (db0 : List Entry) (tr0 : List Op) (st : PassOut) : Prop :=
  ∃ d, st.trace = tr0 ++ d ∧ SpecRel db0 st.db d

theorem StFrom_init (db : List Entry) (s : List (String × String))
    (tr : List Op) : StFrom db tr ⟨db, s, tr⟩ :=
  ⟨[], by simp, SpecRel_refl db⟩

theorem StFrom_step {db0 : List Entry} {tr0 : List Op} {st : PassOut}
    (lid ty : String) (sched now : Int) (due : Bool)
    (h : StFrom db0 tr0 st) :
    StFrom db0 tr0 (ruleStep lid ty sched now due st) := by
  obtain ⟨d, htr, hsp⟩ := h
  have hstep : SpecRel st.db (ruleStep lid ty sched now due st).db
      (ruleSeg lid ty sched due (was_reminder_sent st.db lid ty sched)) := by
    rw [ruleStep_char]
    exact ruleSeg_spec st.db lid ty sched now due
  refine ⟨d ++ ruleSeg lid ty sched due (was_reminder_sent st.db lid ty sched),
    ?_, SpecRel_comp _ _ _ _ _ hsp hstep⟩
  rw [ruleStep_char]
  show st.trace ++ _ = _
  rw [htr, List.append_assoc]

theorem handleCall1Needed_StFrom (db : List Entry) (lead : Lead) (now : Int) :
    StFrom db [] (handleCall1Needed db lead now) := by
  cases hcr : lead.created_at with
  | empty =>
      simp only [handleCall1Needed, hcr]
      exact StFrom_init db [] []
  | bad =>
      simp only [handleCall1Needed, hcr]
      exact StFrom_init db [] []
  | ok c =>
      simp only [handleCall1Needed, hcr]
      exact StFrom_step _ _ _ _ _
        (StFrom_step _ _ _ _ _
          (StFrom_step _ _ _ _ _ (StFrom_init db [] [])))

theorem handleCall1Needed_specRel (db : List Entry) (lead : Lead) (now : Int) :
    SpecRel db (handleCall1Needed db lead now).db
      (handleCall1Needed db lead now).trace := by
  obtain ⟨d, htr, hsp⟩ := handleCall1Needed_StFrom db lead now
  rw [htr, List.nil_append]
  exact hsp

theorem runPasses_StFrom {db0 : List Entry} {tr0 : List Op} (lead : Lead)
    (times : List Int) (st : PassOut) (h : StFrom db0 tr0 st) :
    StFrom db0 tr0 (runPasses lead times st) := by
  induction times generalizing st with
  | nil => exact h
  | cons t ts ih =>
      show StFrom db0 tr0 (runPasses lead ts _)
      refine ih _ ?_
      obtain ⟨d, htr, hsp⟩ := h
      have hpass := handleCall1Needed_specRel st.db lead t
      refine ⟨d ++ (handleCall1Needed st.db lead t).trace, ?_,
        SpecRel_comp _ _ _ _ _ hsp hpass⟩
      show st.trace ++ _ = _
      rw [htr, List.append_assoc]

theorem uniqueTriples_filter_le_one (db : List Entry) (l t : String) (s : Int)
    (h : uniqueTriples db = true) :
    (db.filter (fun e => matchesTriple e l t s)).length ≤ 1 := by
  induction db with
  | nil => simp
  | cons e r ih =>
      simp only [uniqueTriples, Bool.and_eq_true, Bool.not_eq_true',
        List.any_eq_false] at h
      rw [List.filter_cons]
      cases hm : matchesTriple e l t s with
      | false =>
          rw [if_neg Bool.false_ne_true]
          exact ih h.2
      | true =>
          simp only [if_pos rfl]
          have hnil : r.filter (fun x => matchesTriple x l t s) = [] := by
            rw [List.filter_eq_nil_iff]
            intro y hy hb
            rcases (matchesTriple_iff _ _ _ _).mp hb with ⟨f1, f2, f3⟩
            rcases (matchesTriple_iff _ _ _ _).mp hm with ⟨g1, g2, g3⟩
            have : matchesTriple y e.lead_id e.reminder_type e.scheduled_time
                = true := by
              rw [matchesTriple_iff]
              exact ⟨f1.trans g1.symm, f2.trans g2.symm, f3.trans g3.symm⟩
            exact (h.1 y hy) this
          rw [hnil]
          simp

/-- C1: for every `(lead_id, reminder_type, scheduled_time)` triple, at most
one ledger row with `status = sent` ever exists (the UNIQUE constraint is
preserved by every insert and rows are never deleted), and across any number
of repeated sequential reminder passes over the same snapshot — starting from
any engine-reachable ledger (all rows `sent`, triples unique) — at most one
dispatch in total occurs for that triple: none at all if the ledger already
holds a sent row for it, and at most one otherwise. -/
theorem c1_reminder_at_most_once (db : List Entry) (lead : Lead)
    (times : List Int) (l t : String) (s : Int)
    (hAll : allSent db = true) (hUniq : uniqueTriples db = true) :
    dispCount (runPasses lead times ⟨db, [], []⟩).trace l t s +
        (if was_reminder_sent db l t s then 1 else 0) ≤ 1 ∧
      ((runPasses lead times ⟨db, [], []⟩).db.filter
        (fun e => matchesTriple e l t s && e.status == "sent")).length ≤ 1 := by
  obtain ⟨d, htr, hsp⟩ :=
    runPasses_StFrom lead times ⟨db, [], []⟩ (StFrom_init db [] [])
  obtain ⟨hAll2, hU, hf⟩ := hsp hAll
  obtain ⟨cle, hm1, hm2, hm3⟩ := hf l t s
  constructor
  · rw [htr, List.nil_append]
    cases hw : was_reminder_sent db l t s with
    | true =>
        rw [hw] at cle
        have h0 : dispCount d l t s = 0 := by simpa using cle
        simp [h0]
    | false =>
        rw [hw] at cle
        have h1 : dispCount d l t s ≤ 1 := by simpa using cle
        rw [if_neg Bool.false_ne_true]
        omega
  · have hu2 := hU hUniq
    have hle := uniqueTriples_filter_le_one _ l t s hu2
    have hcomm : ((runPasses lead times ⟨db, [], []⟩).db.filter
          (fun e => matchesTriple e l t s && e.status == "sent")) =
        ((runPasses lead times ⟨db, [], []⟩).db.filter
          (fun e => (e.status == "sent") && matchesTriple e l t s)) :=
      List.filter_congr (fun a _ => Bool.and_comm _ _)
    rw [hcomm, ← List.filter_filter]
    exact le_trans (List.length_filter_le _ _) hle

/-- Witness for `c1_reminder_at_most_once` at a concrete lead, ledger and pair
of passes. -/
theorem c1_reminder_at_most_once_witness :
    dispCount (runPasses ⟨"L1", "Call #1 Needed", "", .ok 0, .empty, .empty,
          .empty, .empty⟩ [3600, 7200] ⟨[], [], []⟩).trace "L1" "call1_1h" 3600 +
        (if was_reminder_sent [] "L1" "call1_1h" 3600 then 1 else 0) ≤ 1 ∧
      ((runPasses ⟨"L1", "Call #1 Needed", "", .ok 0, .empty, .empty, .empty,
          .empty⟩ [3600, 7200] ⟨[], [], []⟩).db.filter
        (fun e => matchesTriple e "L1" "call1_1h" 3600 &&
          e.status == "sent")).length ≤ 1 :=
  c1_reminder_at_most_once [] ⟨"L1", "Call #1 Needed", "", .ok 0, .empty,
    .empty, .empty, .empty⟩ [3600, 7200] "L1" "call1_1h" 3600 rfl rfl

theorem handleCall1Needed_trace_char (db : List Entry) (lead : Lead)
    (now c : Int) (h : lead.created_at = .ok c) :
    (handleCall1Needed db lead now).trace =
      ruleSeg lead.id "call1_1h" (c + 3600) (decide (3600 ≤ now - c))
        (was_reminder_sent db lead.id "call1_1h" (c + 3600)) ++
      ruleSeg lead.id "call1_2h" (c + 7200) (decide (7200 ≤ now - c))
        (was_reminder_sent db lead.id "call1_2h" (c + 7200)) ++
      ruleSeg lead.id "call1_12h" (c + 43200) (decide (43200 ≤ now - c))
        (was_reminder_sent db lead.id "call1_12h" (c + 43200)) := by
  simp only [handleCall1Needed, h]
  rw [ruleStep_char]
  rw [ruleStep_char]
  rw [ruleStep_char]
  show (([] ++ _) ++ _) ++ _ = _
  rw [List.nil_append]
  rw [was_append_rows _ _ _ _ _ _ _ _ _ _ _ (by decide : "call1_1h" ≠ "call1_2h")]
  rw [was_append_rows _ _ _ _ _ _ _ _ _ _ _ (by decide : "call1_2h" ≠ "call1_12h")]
  rw [was_append_rows _ _ _ _ _ _ _ _ _ _ _ (by decide : "call1_1h" ≠ "call1_12h")]

theorem mem_ruleSeg_query (lid ty : String) (sched : Int) (b : Bool) :
    Op.queryWasSent lid ty sched ∈ ruleSeg lid ty sched true b := by
  cases b <;> simp [ruleSeg]

theorem dispatch_not_mem_ruleSeg_of_ne (lid ty : String) (sched : Int)
    (due b : Bool) (lid2 ty2 : String) (sched2 : Int) (hne : ty2 ≠ ty) :
    Op.dispatch lid2 ty2 sched2 ∉ ruleSeg lid ty sched due b := by
  cases due <;> cases b <;> simp [ruleSeg] <;> intro _ h2 _ <;> exact hne h2

theorem insert_not_mem_ruleSeg_of_ne (lid ty : String) (sched : Int)
    (due b : Bool) (lid2 ty2 : String) (sched2 : Int) (hne : ty2 ≠ ty) :
    Op.insertLedger lid2 ty2 sched2 ∉ ruleSeg lid ty sched due b := by
  cases due <;> cases b <;> simp [ruleSeg] <;> intro _ h2 _ <;> exact hne h2

theorem dispatch_not_mem_ruleSeg_sent (lid ty : String) (sched : Int)
    (due : Bool) (lid2 ty2 : String) (sched2 : Int) :
    Op.dispatch lid2 ty2 sched2 ∉ ruleSeg lid ty sched due true := by
  cases due <;> simp [ruleSeg]

theorem insert_not_mem_ruleSeg_sent (lid ty : String) (sched : Int)
    (due : Bool) (lid2 ty2 : String) (sched2 : Int) :
    Op.insertLedger lid2 ty2 sched2 ∉ ruleSeg lid ty sched due true := by
  cases due <;> simp [ruleSeg]

/-- C2 counterexample: the claim says the engine decides deduplication by
attempting the unique-constrained insert and performs no separate existence
query.  At a concrete due rule instance (lead created at 0, polled at 3600,
empty ledger) the handler trace is an existence query (`was_reminder_sent`)
first, then the dispatch, and only then the ledger insert — a check-then-act
sequence, refuting the claim. -/
theorem c2_counterexample :
    (handleCall1Needed []
        ⟨"L1", "Call #1 Needed", "", .ok 0, .empty, .empty, .empty, .empty⟩
        3600).trace =
      [Op.queryWasSent "L1" "call1_1h" 3600, Op.dispatch "L1" "call1_1h" 3600,
        Op.insertLedger "L1" "call1_1h" 3600] := by
  decide

/-- C2 (amended): for every due rule instance of `_handle_call1_needed` the
engine first runs the separate existence query `was_reminder_sent` against the
ledger as it stood at the start of the rule block; when that query reports
unsent, the dispatch and then the unique-constrained insert follow immediately
after the query (check, then send, then write); when it reports sent, no
dispatch and no insert occur for that triple.  The insert still returns
`False` on a duplicate, but it is not the decision point. -/
theorem c2_amended (db : List Entry) (lead : Lead) (now c : Int)
    (h : lead.created_at = .ok c) :
    (3600 ≤ now - c →
      Op.queryWasSent lead.id "call1_1h" (c + 3600) ∈
          (handleCall1Needed db lead now).trace ∧
        (was_reminder_sent db lead.id "call1_1h" (c + 3600) = false →
          ∃ pre post, (handleCall1Needed db lead now).trace =
            pre ++ [Op.queryWasSent lead.id "call1_1h" (c + 3600),
              Op.dispatch lead.id "call1_1h" (c + 3600),
              Op.insertLedger lead.id "call1_1h" (c + 3600)] ++ post) ∧
        (was_reminder_sent db lead.id "call1_1h" (c + 3600) = true →
          Op.dispatch lead.id "call1_1h" (c + 3600) ∉
              (handleCall1Needed db lead now).trace ∧
            Op.insertLedger lead.id "call1_1h" (c + 3600) ∉
              (handleCall1Needed db lead now).trace)) ∧
    (7200 ≤ now - c →
      Op.queryWasSent lead.id "call1_2h" (c + 7200) ∈
          (handleCall1Needed db lead now).trace ∧
        (was_reminder_sent db lead.id "call1_2h" (c + 7200) = false →
          ∃ pre post, (handleCall1Needed db lead now).trace =
            pre ++ [Op.queryWasSent lead.id "call1_2h" (c + 7200),
              Op.dispatch lead.id "call1_2h" (c + 7200),
              Op.insertLedger lead.id "call1_2h" (c + 7200)] ++ post) ∧
        (was_reminder_sent db lead.id "call1_2h" (c + 7200) = true →
          Op.dispatch lead.id "call1_2h" (c + 7200) ∉
              (handleCall1Needed db lead now).trace ∧
            Op.insertLedger lead.id "call1_2h" (c + 7200) ∉
              (handleCall1Needed db lead now).trace)) ∧
    (43200 ≤ now - c →
      Op.queryWasSent lead.id "call1_12h" (c + 43200) ∈
          (handleCall1Needed db lead now).trace ∧
        (was_reminder_sent db lead.id "call1_12h" (c + 43200) = false →
          ∃ pre post, (handleCall1Needed db lead now).trace =
            pre ++ [Op.queryWasSent lead.id "call1_12h" (c + 43200),
              Op.dispatch lead.id "call1_12h" (c + 43200),
              Op.insertLedger lead.id "call1_12h" (c + 43200)] ++ post) ∧
        (was_reminder_sent db lead.id "call1_12h" (c + 43200) = true →
          Op.dispatch lead.id "call1_12h" (c + 43200) ∉
              (handleCall1Needed db lead now).trace ∧
            Op.insertLedger lead.id "call1_12h" (c + 43200) ∉
              (handleCall1Needed db lead now).trace)) := by
  rw [handleCall1Needed_trace_char db lead now c h]
  refine ⟨?_, ?_, ?_⟩
  · intro hdue
    rw [decide_eq_true hdue]
    refine ⟨?_, ?_, ?_⟩
    · exact List.mem_append_left _ (List.mem_append_left _
        (mem_ruleSeg_query _ _ _ _))
    · intro hb
      rw [hb]
      refine ⟨[], ?_, ?_⟩
      · exact ruleSeg lead.id "call1_2h" (c + 7200) (decide (7200 ≤ now - c))
          (was_reminder_sent db lead.id "call1_2h" (c + 7200)) ++
          ruleSeg lead.id "call1_12h" (c + 43200) (decide (43200 ≤ now - c))
          (was_reminder_sent db lead.id "call1_12h" (c + 43200))
      · simp [ruleSeg, List.append_assoc]
    · intro hb
      rw [hb]
      constructor
      · intro hmem
        rcases List.mem_append.mp hmem with hm | hm
        · rcases List.mem_append.mp hm with hm2 | hm2
          · exact dispatch_not_mem_ruleSeg_sent _ _ _ _ _ _ _ hm2
          · exact dispatch_not_mem_ruleSeg_of_ne _ _ _ _ _ _ _ _
              (by decide : ("call1_1h" : String) ≠ "call1_2h") hm2
        · exact dispatch_not_mem_ruleSeg_of_ne _ _ _ _ _ _ _ _
            (by decide : ("call1_1h" : String) ≠ "call1_12h") hm
      · intro hmem
        rcases List.mem_append.mp hmem with hm | hm
        · rcases List.mem_append.mp hm with hm2 | hm2
          · exact insert_not_mem_ruleSeg_sent _ _ _ _ _ _ _ hm2
          · exact insert_not_mem_ruleSeg_of_ne _ _ _ _ _ _ _ _
              (by decide : ("call1_1h" : String) ≠ "call1_2h") hm2
        · exact insert_not_mem_ruleSeg_of_ne _ _ _ _ _ _ _ _
            (by decide : ("call1_1h" : String) ≠ "call1_12h") hm
  · intro hdue
    rw [decide_eq_true hdue]
    refine ⟨?_, ?_, ?_⟩
    · exact List.mem_append_left _ (List.mem_append_right _
        (mem_ruleSeg_query _ _ _ _))
    · intro hb
      rw [hb]
      refine ⟨ruleSeg lead.id "call1_1h" (c + 3600) (decide (3600 ≤ now - c))
        (was_reminder_sent db lead.id "call1_1h" (c + 3600)), ?_, ?_⟩
      · exact ruleSeg lead.id "call1_12h" (c + 43200) (decide (43200 ≤ now - c))
          (was_reminder_sent db lead.id "call1_12h" (c + 43200))
      · simp [ruleSeg, List.append_assoc]
    · intro hb
      rw [hb]
      constructor
      · intro hmem
        rcases List.mem_append.mp hmem with hm | hm
        · rcases List.mem_append.mp hm with hm2 | hm2
          · exact dispatch_not_mem_ruleSeg_of_ne _ _ _ _ _ _ _ _
              (by decide : ("call1_2h" : String) ≠ "call1_1h") hm2
          · exact dispatch_not_mem_ruleSeg_sent _ _ _ _ _ _ _ hm2
        · exact dispatch_not_mem_ruleSeg_of_ne _ _ _ _ _ _ _ _
            (by decide : ("call1_2h" : String) ≠ "call1_12h") hm
      · intro hmem
        rcases List.mem_append.mp hmem with hm | hm
        · rcases List.mem_append.mp hm with hm2 | hm2
          · exact insert_not_mem_ruleSeg_of_ne _ _ _ _ _ _ _ _
              (by decide : ("call1_2h" : String) ≠ "call1_1h") hm2
          · exact insert_not_mem_ruleSeg_sent _ _ _ _ _ _ _ hm2
        · exact insert_not_mem_ruleSeg_of_ne _ _ _ _ _ _ _ _
            (by decide : ("call1_2h" : String) ≠ "call1_12h") hm
  · intro hdue
    rw [decide_eq_true hdue]
    refine ⟨?_, ?_, ?_⟩
    · exact List.mem_append_right _ (mem_ruleSeg_query _ _ _ _)
    · intro hb
      rw [hb]
      refine ⟨ruleSeg lead.id "call1_1h" (c + 3600) (decide (3600 ≤ now - c))
          (was_reminder_sent db lead.id "call1_1h" (c + 3600)) ++
        ruleSeg lead.id "call1_2h" (c + 7200) (decide (7200 ≤ now - c))
          (was_reminder_sent db lead.id "call1_2h" (c + 7200)), [], ?_⟩
      simp [ruleSeg, List.append_assoc]
    · intro hb
      rw [hb]
      constructor
      · intro hmem
        rcases List.mem_append.mp hmem with hm | hm
        · rcases List.mem_append.mp hm with hm2 | hm2
          · exact dispatch_not_mem_ruleSeg_of_ne _ _ _ _ _ _ _ _
              (by decide : ("call1_12h" : String) ≠ "call1_1h") hm2
          · exact dispatch_not_mem_ruleSeg_of_ne _ _ _ _ _ _ _ _
              (by decide : ("call1_12h" : String) ≠ "call1_2h") hm2
        · exact dispatch_not_mem_ruleSeg_sent _ _ _ _ _ _ _ hm
      · intro hmem
        rcases List.mem_append.mp hmem with hm | hm
        · rcases List.mem_append.mp hm with hm2 | hm2
          · exact insert_not_mem_ruleSeg_of_ne _ _ _ _ _ _ _ _
              (by decide : ("call1_12h" : String) ≠ "call1_1h") hm2
          · exact insert_not_mem_ruleSeg_of_ne _ _ _ _ _ _ _ _
              (by decide : ("call1_12h" : String) ≠ "call1_2h") hm2
        · exact insert_not_mem_ruleSeg_sent _ _ _ _ _ _ _ hm

/-- Witness for `c2_amended` at a concrete lead with all three rules due and
an empty ledger. -/
theorem c2_amended_witness :
    (3600 : Int) ≤ 50000 - 0 ∧
      was_reminder_sent [] "L1" "call1_1h" (0 + 3600) = false ∧
      ∃ pre post,
        (handleCall1Needed []
            ⟨"L1", "Call #1 Needed", "", .ok 0, .empty, .empty, .empty, .empty⟩
            50000).trace =
          pre ++ [Op.queryWasSent "L1" "call1_1h" (0 + 3600),
            Op.dispatch "L1" "call1_1h" (0 + 3600),
            Op.insertLedger "L1" "call1_1h" (0 + 3600)] ++ post := by
  refine ⟨by decide, rfl, ?_⟩
  exact ((c2_amended []
    ⟨"L1", "Call #1 Needed", "", .ok 0, .empty, .empty, .empty, .empty⟩
    50000 0 rfl).1 (by decide)).2.1 rfl

/-- C3: evaluation at the failing input.  The claim says the did-not-attend
notification fires exactly once ever, with a ledger key scoped to the
`(lead_id, reminder_type)` pair alone.  In the code the ledger key includes
`format_datetime(now_utc())` — the current poll instant — so two passes over
the same lead at different times (1000 and 1120 seconds) both dispatch, and
the ledger ends with two rows for the same lead and type differing only in
`scheduled_time`. -/
theorem c3_did_not_attend_resends :
    (handleDidNotAttend []
        ⟨"L1", "Did Not Attend", "", .empty, .empty, .empty, .empty, .empty⟩
        1000).sent = [("did_not_attend", "L1")] ∧
      (handleDidNotAttend
        (handleDidNotAttend []
          ⟨"L1", "Did Not Attend", "", .empty, .empty, .empty, .empty, .empty⟩
          1000).db
        ⟨"L1", "Did Not Attend", "", .empty, .empty, .empty, .empty, .empty⟩
        1120).sent = [("did_not_attend", "L1")] ∧
      (handleDidNotAttend
        (handleDidNotAttend []
          ⟨"L1", "Did Not Attend", "", .empty, .empty, .empty, .empty, .empty⟩
          1000).db
        ⟨"L1", "Did Not Attend", "", .empty, .empty, .empty, .empty, .empty⟩
        1120).db =
        [⟨"L1", "did_not_attend", 1000, some 1000, "sent", 1000⟩,
          ⟨"L1", "did_not_attend", 1120, some 1120, "sent", 1120⟩] := by
  decide

/-- C7 counterexample: the claim says that when the external write scheduling
`Call_2_Time` fails, the scheduled notification is not sent.  With an
always-failing write oracle, the trace of `_handle_call1_done` contains the
failed write and nevertheless the `call2_scheduled` dispatch: the code ignores
the write result. -/
theorem c7_counterexample :
    Op.sheetWrite "L1" "Call_2_Time" 7200 false ∈
        (handleCall1Done []
          ⟨"L1", "Call #1 Done", "", .empty, .ok 0, .empty, .empty, .empty⟩
          100 (fun _ _ => false)).trace ∧
      Op.dispatch "L1" "call2_scheduled" 7200 ∈
        (handleCall1Done []
          ⟨"L1", "Call #1 Done", "", .empty, .ok 0, .empty, .empty, .empty⟩
          100 (fun _ _ => false)).trace := by
  decide

/-- C7 (amended): for a lead in Call #1 Done with `Call_1_Time` parsed and
`Call_2_Time` empty, `_handle_call1_done` writes the scheduled time and then
sends the notification unconditionally — the write result is ignored, so on
failure the notification is still sent; no ledger row is created in any case
(the ledger is returned unchanged), so with the external cell still unset the
rule fires again (write and notification included) on the next pass. -/
theorem c7_amended (db : List Entry) (lead : Lead) (now c1 : Int)
    (wr : String → Int → Bool) (h1 : lead.call1 = .ok c1)
    (h2 : lead.call2 = .empty) :
    handleCall1Done db lead now wr =
      ⟨db, [("call2_scheduled", lead.id)],
        [.sheetWrite lead.id "Call_2_Time" (c1 + 7200)
            (wr "Call_2_Time" (c1 + 7200)),
          .dispatch lead.id "call2_scheduled" (c1 + 7200)]⟩ := by
  simp [handleCall1Done, h1, h2]

/-- Witness for `c7_amended` at a concrete lead and a failing write oracle. -/
theorem c7_amended_witness :
    handleCall1Done []
        ⟨"L1", "Call #1 Done", "", .empty, .ok 0, .empty, .empty, .empty⟩
        100 (fun _ _ => false) =
      ⟨[], [("call2_scheduled", "L1")],
        [.sheetWrite "L1" "Call_2_Time" (0 + 7200) false,
          .dispatch "L1" "call2_scheduled" (0 + 7200)]⟩ :=
  c7_amended []
    ⟨"L1", "Call #1 Done", "", .empty, .ok 0, .empty, .empty, .empty⟩
    100 0 (fun _ _ => false) rfl rfl

/-- C8: evaluation of the broken recipient resolution.  The reminder send
routines match `s.get("full_name") == seller_name or s.get("username") ==
seller_name` over rows of the `sellers` table, which have neither key, so
resolution returns `None` for every registry and every seller name and every
ordinary reminder is dropped; meanwhile `get_seller_by_name` — the
case-insensitive trimmed registry lookup the claim describes, used by the
monitor service but not by the reminder path — does find the seller at the
same input. -/
theorem c8_seller_resolution_always_fails :
    (∀ sellers name, resolveReminderSeller sellers name = none) ∧
      (∀ sellers lead, sendCall1ReminderRecipient sellers lead = none) ∧
      get_seller_by_name [⟨1, "Alice", some 42, 1, "", ""⟩] " alice " =
        some ⟨1, "Alice", some 42, 1, "", ""⟩ := by
  have hmatch : ∀ s name, reminderSellerMatch s name = false := by
    intro s name
    simp [reminderSellerMatch, sellerRowGet]
  have hres : ∀ sellers name, resolveReminderSeller sellers name = none := by
    intro sellers name
    rw [resolveReminderSeller, List.find?_eq_none]
    intro x _
    simp [hmatch]
  refine ⟨hres, ?_, ?_⟩
  · intro sellers lead
    simp [sendCall1ReminderRecipient, hres]
  · decide

theorem mem_ruleRows_status (lid ty : String) (sched now : Int)
    (due b trip : Bool) (e : Entry)
    (h : e ∈ ruleRows lid ty sched now due b trip) : e.status = "sent" := by
  unfold ruleRows at h
  by_cases hc : (due && !b && !trip) = true
  · rw [if_pos hc] at h
    rcases List.mem_singleton.mp h with rfl
    rfl
  · rw [if_neg hc] at h
    exact absurd h (List.not_mem_nil e)

theorem ruleStep_db_mem (lid ty : String) (sched now : Int) (due : Bool)
    (st : PassOut) (e : Entry)
    (he : e ∈ (ruleStep lid ty sched now due st).db) :
    e ∈ st.db ∨ e.status = "sent" := by
  rw [ruleStep_char] at he
  rcases List.mem_append.mp he with h | h
  · exact Or.inl h
  · exact Or.inr (mem_ruleRows_status _ _ _ _ _ _ _ _ h)

theorem handleCall1Needed_db_mem (db : List Entry) (lead : Lead) (now : Int)
    (e : Entry) (he : e ∈ (handleCall1Needed db lead now).db) :
    e ∈ db ∨ e.status = "sent" := by
  cases hcr : lead.created_at with
  | empty =>
      simp only [handleCall1Needed, hcr] at he
      exact Or.inl he
  | bad =>
      simp only [handleCall1Needed, hcr] at he
      exact Or.inl he
  | ok c =>
      simp only [handleCall1Needed, hcr] at he
      rcases ruleStep_db_mem _ _ _ _ _ _ _ he with h1 | h1
      · rcases ruleStep_db_mem _ _ _ _ _ _ _ h1 with h2 | h2
        · rcases ruleStep_db_mem _ _ _ _ _ _ _ h2 with h3 | h3
          · exact Or.inl h3
          · exact Or.inr h3
        · exact Or.inr h2
      · exact Or.inr h1

theorem handleCall1Done_db_mem (db : List Entry) (lead : Lead) (now : Int)
    (wr : String → Int → Bool) (e : Entry)
    (he : e ∈ (handleCall1Done db lead now wr).db) :
    e ∈ db ∨ e.status = "sent" := by
  cases hc2 : lead.call2 with
  | empty =>
      simp only [handleCall1Done, hc2] at he
      exact Or.inl he
  | bad =>
      simp only [handleCall1Done, hc2] at he
      exact Or.inl he
  | ok t2 =>
      simp only [handleCall1Done, hc2] at he
      by_cases hlt : t2 < now
      · rw [if_pos hlt] at he
        rcases ruleStep_db_mem _ _ _ _ _ _ _ he with h1 | h1
        · exact Or.inl h1
        · exact Or.inr h1
      · rw [if_neg hlt] at he
        exact Or.inl he

theorem handleCall2Done_db_mem (db : List Entry) (lead : Lead) (now : Int)
    (wr : String → Int → Bool) (e : Entry)
    (he : e ∈ (handleCall2Done db lead now wr).db) :
    e ∈ db ∨ e.status = "sent" := by
  cases hc3 : lead.call3 with
  | empty =>
      simp only [handleCall2Done, hc3] at he
      exact Or.inl he
  | bad =>
      simp only [handleCall2Done, hc3] at he
      exact Or.inl he
  | ok t3 =>
      simp only [handleCall2Done, hc3] at he
      by_cases hlt : t3 < now
      · rw [if_pos hlt] at he
        rcases ruleStep_db_mem _ _ _ _ _ _ _ he with h1 | h1
        · exact Or.inl h1
        · exact Or.inr h1
      · rw [if_neg hlt] at he
        exact Or.inl he

theorem handleFirstClassPending_db_mem (db : List Entry) (lead : Lead)
    (now : Int) (e : Entry)
    (he : e ∈ (handleFirstClassPending db lead now).db) :
    e ∈ db ∨ e.status = "sent" := by
  cases hfc : lead.first_class with
  | empty =>
      simp only [handleFirstClassPending, hfc] at he
      exact Or.inl he
  | bad =>
      simp only [handleFirstClassPending, hfc] at he
      exact Or.inl he
  | ok fc =>
      simp only [handleFirstClassPending, hfc] at he
      rcases ruleStep_db_mem _ _ _ _ _ _ _ he with h1 | h1
      · rcases ruleStep_db_mem _ _ _ _ _ _ _ h1 with h2 | h2
        · exact Or.inl h2
        · exact Or.inr h2
      · exact Or.inr h1

theorem handleDidNotAttend_db_mem (db : List Entry) (lead : Lead) (now : Int)
    (e : Entry) (he : e ∈ (handleDidNotAttend db lead now).db) :
    e ∈ db ∨ e.status = "sent" := by
  rcases ruleStep_db_mem _ _ _ _ _ _ _ he with h1 | h1
  · exact Or.inl h1
  · exact Or.inr h1

/-- C10: `mark_reminder_sent` inserts exactly one row with `status = sent` and
a non-null `sent_time` when the triple is fresh, and on a duplicate triple
returns `False` leaving the whole ledger unchanged; every ledger row any
reminder handler adds has `status = sent`, so the `pending` column default is
never written by the engine (`mark_reminder_sent` is the repository's only
writer of the `reminders` table). -/
theorem c10_ledger_rows_sent :
    (∀ (db : List Entry) lid ty sched now, tripInDb db lid ty sched = true →
        mark_reminder_sent db lid ty sched now = (db, false)) ∧
      (∀ (db : List Entry) lid ty sched now, tripInDb db lid ty sched = false →
        mark_reminder_sent db lid ty sched now =
          (db ++ [⟨lid, ty, sched, some now, "sent", now⟩], true)) ∧
      (∀ db lead now e, e ∈ (handleCall1Needed db lead now).db →
        e ∈ db ∨ e.status = "sent") ∧
      (∀ db lead now wr e, e ∈ (handleCall1Done db lead now wr).db →
        e ∈ db ∨ e.status = "sent") ∧
      (∀ db lead now wr e, e ∈ (handleCall2Done db lead now wr).db →
        e ∈ db ∨ e.status = "sent") ∧
      (∀ db lead now e, e ∈ (handleFirstClassPending db lead now).db →
        e ∈ db ∨ e.status = "sent") ∧
      (∀ db lead now e, e ∈ (handleDidNotAttend db lead now).db →
        e ∈ db ∨ e.status = "sent") := by
  refine ⟨?_, ?_, handleCall1Needed_db_mem, handleCall1Done_db_mem,
    handleCall2Done_db_mem, handleFirstClassPending_db_mem,
    handleDidNotAttend_db_mem⟩
  · intro db lid ty sched now h
    simp [mark_reminder_sent, h]
  · intro db lid ty sched now h
    simp [mark_reminder_sent, h]

/-- Witness for `c10_ledger_rows_sent`: a fresh insert creates the sent row
with its `sent_time`, and the duplicate attempt returns `False` leaving the
ledger unchanged. -/
theorem c10_ledger_rows_sent_witness :
    mark_reminder_sent [] "L1" "call1_1h" 3600 4000 =
        ([⟨"L1", "call1_1h", 3600, some 4000, "sent", 4000⟩], true) ∧
      mark_reminder_sent [⟨"L1", "call1_1h", 3600, some 4000, "sent", 4000⟩]
          "L1" "call1_1h" 3600 5000 =
        ([⟨"L1", "call1_1h", 3600, some 4000, "sent", 4000⟩], false) :=
  ⟨c10_ledger_rows_sent.2.1 [] "L1" "call1_1h" 3600 4000 (by decide),
    c10_ledger_rows_sent.1 [⟨"L1", "call1_1h", 3600, some 4000, "sent", 4000⟩]
      "L1" "call1_1h" 3600 5000 (by decide)⟩

/-- C4 counterexample: the claim says an error while processing one lead is
caught per-lead and every other lead in the batch is still processed.  With a
two-lead batch where processing of lead A raises (oracle `fail`), the pass
returns `[]` and leaves the engine state untouched: lead B is never processed
(no state heartbeat, no reminder evaluation), because the `try` of
`process_all_leads` wraps the whole loop. -/
theorem c4_counterexample :
    process_all_leads (fun l => l.id == "A") "First Class Pending" "Did Not Attend"
        (fun _ _ => true) [] []
        [⟨"A", "Call #1 Needed", "", .ok 0, .empty, .empty, .empty, .empty⟩,
          ⟨"B", "Call #1 Needed", "", .ok 0, .empty, .empty, .empty, .empty⟩]
        3600 =
      ([], ⟨[], [], [], []⟩) := by
  decide

/-- C4 (amended): an error raised while processing one lead is caught at the
batch level, not per-lead: the method returns `[]` (so the error never
propagates to the scheduler), the side effects of the leads already processed
persist, and the failing lead and every lead after it in the batch are skipped
for the pass. -/
theorem c4_amended (fail : Lead → Bool) (fcp dna : String)
    (wr : String → Int → Bool) (now : Int) (pre : List Lead) (bad : Lead)
    (post : List Lead) (st0 : EngSt)
    (hpre : ∀ l ∈ pre, fail l = false) (hbad : fail bad = true) :
    processAllLeadsGo fail fcp dna wr now (pre ++ bad :: post) st0 =
      ([], pre.foldl (fun st l => processOneLead fcp dna wr st l now) st0) := by
  induction pre generalizing st0 with
  | nil =>
      simp only [List.nil_append, processAllLeadsGo, hbad, List.foldl_nil]
      rw [if_pos trivial]
  | cons x xs ih =>
      have hx : fail x = false := hpre x (List.mem_cons_self x xs)
      simp only [List.cons_append, processAllLeadsGo, hx, List.foldl_cons]
      rw [if_neg Bool.false_ne_true]
      exact ih _ (fun l hl => hpre l (List.mem_cons_of_mem x hl))

/-- Witness for `c4_amended` with one successfully processed lead before the
failing one and one (skipped) lead after it. -/
theorem c4_amended_witness :
    processAllLeadsGo (fun l => l.id == "B") "First Class Pending"
        "Did Not Attend" (fun _ _ => true) 3600
        ([⟨"A", "Call #1 Needed", "", .ok 0, .empty, .empty, .empty, .empty⟩] ++
          ⟨"B", "Call #1 Needed", "", .ok 0, .empty, .empty, .empty, .empty⟩ ::
          [⟨"C", "Call #1 Needed", "", .ok 0, .empty, .empty, .empty, .empty⟩])
        ⟨[], [], [], []⟩ =
      ([], [⟨"A", "Call #1 Needed", "", .ok 0, .empty, .empty, .empty,
          .empty⟩].foldl
        (fun st l => processOneLead "First Class Pending" "Did Not Attend"
          (fun _ _ => true) st l 3600) ⟨[], [], [], []⟩) :=
  c4_amended (fun l => l.id == "B") "First Class Pending" "Did Not Attend"
    (fun _ _ => true) 3600
    [⟨"A", "Call #1 Needed", "", .ok 0, .empty, .empty, .empty, .empty⟩]
    ⟨"B", "Call #1 Needed", "", .ok 0, .empty, .empty, .empty, .empty⟩
    [⟨"C", "Call #1 Needed", "", .ok 0, .empty, .empty, .empty, .empty⟩]
    ⟨[], [], [], []⟩ (by decide) (by decide)

theorem getLeadState_update (states : List StateRec) (lid st : String)
    (now : Int) :
    getLeadState (updateLeadState states lid st now) lid =
      some ⟨lid, st, now, now⟩ := by
  unfold getLeadState updateLeadState
  rw [List.find?_append]
  have hnone : (states.filter (fun r => r.lead_id ≠ lid)).find?
      (fun r => r.lead_id == lid) = none := by
    rw [List.find?_eq_none]
    intro x hx
    have hne : x.lead_id ≠ lid := by
      have := (List.mem_filter.mp hx).2
      simpa using this
    simp [hne]
  rw [hnone]
  simp

theorem iterateNewLeadPolls_absorbed (sellers : List SellerRow) (lead : Lead)
    (now : Int) (m : Nat) (states : List StateRec) (r : StateRec)
    (h : getLeadState states lead.id = some r) :
    iterateNewLeadPolls sellers [lead] now m states = ([], states, []) := by
  induction m with
  | zero => rfl
  | succ k ih =>
      have hpoll : check_for_new_leads sellers states [lead] now =
          ([], states, []) := by
        unfold check_for_new_leads checkForNewLeadsGo
        by_cases hid : lead.id = ""
        · rw [if_pos hid]
          rfl
        · rw [if_neg hid, h]
          rfl
      rw [iterateNewLeadPolls, hpoll]
      show ([] ++ (iterateNewLeadPolls sellers [lead] now k states).1,
        (iterateNewLeadPolls sellers [lead] now k states).2.1,
        [] ++ (iterateNewLeadPolls sellers [lead] now k states).2.2) =
          ([], states, [])
      rw [ih]
      rfl

theorem c6_first_poll (sellers : List SellerRow) (lead : Lead) (now : Int)
    (states0 : List StateRec) (hid : lead.id ≠ "")
    (hnew : getLeadState states0 lead.id = none) :
    check_for_new_leads sellers states0 [lead] now =
      ([lead.id], updateLeadState states0 lead.id lead.status now,
        handleNewLead sellers lead now) := by
  unfold check_for_new_leads checkForNewLeadsGo
  rw [if_neg hid, hnew]
  show ([] ++ [lead.id], _, [] ++ handleNewLead sellers lead now) = _
  rw [List.nil_append, List.nil_append]

theorem handleNewLead_bootstrap_count (sellers : List SellerRow) (lead : Lead)
    (now : Int) :
    ((handleNewLead sellers lead now).filter isUpdateLeadOp).length ≤ 1 ∧
      (((handleNewLead sellers lead now).filter isUpdateLeadOp).length = 1 ↔
        ((∃ srow tid,
            get_seller_by_name sellers (pyStrip lead.seller) = some srow ∧
              srow.telegram_id = some tid ∧ tid ≠ 0) ∧
          (pyStrip lead.status = "New Lead" ∨ pyStrip lead.status = ""))) := by
  unfold handleNewLead
  by_cases hs : pyStrip lead.seller = ""
  · rw [if_pos hs]
    have hg : get_seller_by_name sellers (pyStrip lead.seller) = none := by
      rw [hs]
      unfold get_seller_by_name
      rw [if_pos (by decide : pyStrip "" = "")]
    simp [hg]
  · rw [if_neg hs]
    cases hg : get_seller_by_name sellers (pyStrip lead.seller) with
    | none => simp [hg]
    | some s =>
        simp only []
        cases ht : s.telegram_id with
        | none => simp [ht]
        | some tid =>
            simp only [ht]
            by_cases h0 : tid = 0
            · rw [if_pos h0]
              simp [ht, h0]
            · rw [if_neg h0]
              by_cases hst : pyStrip lead.status = "New Lead" ∨
                  pyStrip lead.status = ""
              · rw [if_pos hst]
                refine ⟨by simp [isUpdateLeadOp], ?_⟩
                constructor
                · intro _
                  exact ⟨⟨s, tid, rfl, ht, h0⟩, hst⟩
                · intro _
                  simp [isUpdateLeadOp]
              · rw [if_neg hst]
                refine ⟨by simp [isUpdateLeadOp], ?_⟩
                constructor
                · intro h1
                  simp [isUpdateLeadOp] at h1
                · rintro ⟨_, hstatus⟩
                  exact absurd hstatus hst

/-- C6 counterexample: the claim says that for a never-before-seen lead whose
status is empty, the detector advances the status to Call #1 Needed and stamps
a call-1 time via a bootstrap write.  For a lead with an empty assigned
seller, two polls over the same snapshot emit the one new-lead event but
perform zero bootstrap writes (trace empty): `_handle_new_lead` returns before
the status update whenever the seller is missing, unmatched, or unlinked. -/
theorem c6_counterexample :
    iterateNewLeadPolls []
        [⟨"L1", "", "", .empty, .empty, .empty, .empty, .empty⟩] 500 2 [] =
      (["L1"], [⟨"L1", "", 500, 500⟩], []) := by
  decide

/-- C6 (amended): for every lead with a non-empty id and no existing lead
state record, any number `n + 1` of repeated polls over the same snapshot
emits exactly one new-lead event and performs at most one bootstrap write;
exactly one bootstrap write happens iff the lead's assigned seller resolves in
the registry (case-insensitive, trimmed) to a row with a non-zero linked
Telegram id and the lead's status is empty or `New Lead` — otherwise there is
no bootstrap write at all. -/
theorem c6_amended (sellers : List SellerRow) (lead : Lead) (now : Int)
    (states0 : List StateRec) (n : Nat) (hid : lead.id ≠ "")
    (hnew : getLeadState states0 lead.id = none) :
    (iterateNewLeadPolls sellers [lead] now (n + 1) states0).1 = [lead.id] ∧
      (((iterateNewLeadPolls sellers [lead] now (n + 1) states0).2.2.filter
        isUpdateLeadOp).length ≤ 1) ∧
      ((((iterateNewLeadPolls sellers [lead] now (n + 1) states0).2.2.filter
          isUpdateLeadOp).length = 1) ↔
        ((∃ srow tid,
            get_seller_by_name sellers (pyStrip lead.seller) = some srow ∧
              srow.telegram_id = some tid ∧ tid ≠ 0) ∧
          (pyStrip lead.status = "New Lead" ∨ pyStrip lead.status = ""))) := by
  have hiter : iterateNewLeadPolls sellers [lead] now (n + 1) states0 =
      ([lead.id], updateLeadState states0 lead.id lead.status now,
        handleNewLead sellers lead now) := by
    rw [iterateNewLeadPolls, c6_first_poll sellers lead now states0 hid hnew]
    show ([lead.id] ++ _, _, handleNewLead sellers lead now ++ _) = _
    rw [iterateNewLeadPolls_absorbed sellers lead now n _
      ⟨lead.id, lead.status, now, now⟩ (getLeadState_update states0 _ _ _)]
    simp
  rw [hiter]
  exact ⟨rfl, (handleNewLead_bootstrap_count sellers lead now).1,
    (handleNewLead_bootstrap_count sellers lead now).2⟩

/-- Witness for `c6_amended`: a lead with a resolvable linked seller and empty
status gets exactly one new-lead event and one bootstrap write across three
polls. -/
theorem c6_amended_witness :
    (iterateNewLeadPolls [⟨1, "Alice", some 42, 1, "", ""⟩]
        [⟨"L1", "", "Alice", .empty, .empty, .empty, .empty, .empty⟩] 500
        (2 + 1) []).1 = ["L1"] ∧
      (((iterateNewLeadPolls [⟨1, "Alice", some 42, 1, "", ""⟩]
          [⟨"L1", "", "Alice", .empty, .empty, .empty, .empty, .empty⟩] 500
          (2 + 1) []).2.2.filter isUpdateLeadOp).length ≤ 1) ∧
      ((((iterateNewLeadPolls [⟨1, "Alice", some 42, 1, "", ""⟩]
          [⟨"L1", "", "Alice", .empty, .empty, .empty, .empty, .empty⟩] 500
          (2 + 1) []).2.2.filter isUpdateLeadOp).length = 1) ↔
        ((∃ srow tid,
            get_seller_by_name [⟨1, "Alice", some 42, 1, "", ""⟩]
                (pyStrip ("Alice" : String)) = some srow ∧
              srow.telegram_id = some tid ∧ tid ≠ 0) ∧
          (pyStrip ("" : String) = "New Lead" ∨ pyStrip ("" : String) = ""))) :=
  c6_amended [⟨1, "Alice", some 42, 1, "", ""⟩]
    ⟨"L1", "", "Alice", .empty, .empty, .empty, .empty, .empty⟩ 500 [] 2
    (by decide) rfl

theorem handleCall1Done_no_call1_dispatch (db : List Entry) (lead : Lead)
    (now : Int) (wr : String → Int → Bool) :
    (handleCall1Done db lead now wr).trace.filter isCall1Dispatch = [] := by
  unfold handleCall1Done
  cases lead.call1 <;> cases lead.call2 <;> simp only [] <;>
    try simp [isCall1Dispatch]
  all_goals
    rename_i t2
    by_cases hlt : t2 < now
  all_goals
    try (rw [if_pos hlt]; rw [ruleStep_char]; cases was_reminder_sent db lead.id "call2_due" t2 <;>
      simp [ruleSeg, isCall1Dispatch])
  all_goals
    rw [if_neg hlt] <;> simp [isCall1Dispatch]

theorem processOneLead_call1done (fcp dna : String) (wr : String → Int → Bool)
    (st : EngSt) (lead : Lead) (now : Int) (hid : lead.id ≠ "")
    (hstatus : lead.status = "Call #1 Done") :
    processOneLead fcp dna wr st lead now =
      { st with
        db := (handleCall1Done st.db lead now wr).db,
        states := updateLeadState st.states lead.id lead.status now,
        events := st.events ++ (handleCall1Done st.db lead now wr).sent,
        trace := st.trace ++ [.stateWrite lead.id lead.status] ++
          (handleCall1Done st.db lead now wr).trace } := by
  simp [processOneLead, hstatus, hid]

theorem checkStatusChanges_single_changed (sellers : List SellerRow)
    (states : List StateRec) (lead : Lead) (now : Int) (r : StateRec)
    (hid : lead.id ≠ "") (hst : getLeadState states lead.id = some r)
    (hdiff : lead.status ≠ r.last_status) (hne : lead.status ≠ "")
    (hsafe : handleStatusChangeMonitor sellers lead.seller = .ok ()) :
    check_for_status_changes sellers states [lead] now =
      ([lead.id], updateLeadState states lead.id lead.status now) := by
  unfold check_for_status_changes checkForStatusChangesGo
  rw [if_neg hid, hst]
  simp only []
  rw [if_pos ⟨hdiff, hne⟩]
  simp only [hsafe]
  rfl

theorem checkStatusChanges_single_unchanged (sellers : List SellerRow)
    (states : List StateRec) (lead : Lead) (now : Int) (r : StateRec)
    (hst : getLeadState states lead.id = some r)
    (heq : lead.status = r.last_status) :
    check_for_status_changes sellers states [lead] now = ([], states) := by
  unfold check_for_status_changes checkForStatusChangesGo
  by_cases hid : lead.id = ""
  · rw [if_pos hid]
    rfl
  · rw [if_neg hid, hst]
    simp only []
    rw [if_neg (fun h => h.1 heq)]
    rfl

/-- C5 counterexample: the claim requires exactly one status-transition event
regardless of which job processes the snapshot first.  With the lead state
remembering `Call #1 Needed` and the snapshot showing `Call #1 Done`, running
the reminder job first makes its `update_lead_state` heartbeat overwrite
`last_status`, after which the change detector sees no difference and emits
zero transition events. -/
theorem c5_counterexample :
    (reminderThenDetection [] "First Class Pending" "Did Not Attend"
        (fun _ _ => true) [] [⟨"L1", "Call #1 Needed", 0, 0⟩]
        ⟨"L1", "Call #1 Done", "", .empty, .ok 0, .ok 999999, .empty, .empty⟩
        1000).1 = [] := by
  decide

/-- C5 (amended): for a lead whose status moved externally from Call #1
Needed directly to Call #1 Done between two polls, one detection+reminder
tick emits exactly one transition event when the change-detection job
processes the snapshot first, but zero events when the reminder job processes
it first (its lead-state heartbeat overwrites `last_status` before the
detector compares); in either order no call-#1 reminder is dispatched.  The
seller-resolution hypothesis keeps `_handle_status_change` on its silent
path: when the seller resolves to a linked Telegram id, the notification
helper raises a `NameError` (it reads status constants the module never
imports) and the detection batch aborts with no event either. -/
theorem c5_amended (sellers : List SellerRow) (fcp dna : String)
    (wr : String → Int → Bool) (db : List Entry) (states : List StateRec)
    (lead : Lead) (now : Int) (r : StateRec) (hid : lead.id ≠ "")
    (hstatus : lead.status = "Call #1 Done")
    (hst : getLeadState states lead.id = some r)
    (hlast : r.last_status = "Call #1 Needed")
    (hsafe : handleStatusChangeMonitor sellers lead.seller = .ok ()) :
    (detectionThenReminder sellers fcp dna wr db states lead now).1 =
        [lead.id] ∧
      (reminderThenDetection sellers fcp dna wr db states lead now).1 = [] ∧
      (detectionThenReminder sellers fcp dna wr db states lead
          now).2.trace.filter isCall1Dispatch = [] ∧
      (reminderThenDetection sellers fcp dna wr db states lead
          now).2.trace.filter isCall1Dispatch = [] := by
  have hdiff : lead.status ≠ r.last_status := by
    rw [hstatus, hlast]
    decide
  have hne : lead.status ≠ "" := by
    rw [hstatus]
    decide
  have hdet := checkStatusChanges_single_changed sellers states lead now r hid
    hst hdiff hne hsafe
  have hstates : (processOneLead fcp dna wr ⟨db, states, [], []⟩ lead
      now).states = updateLeadState states lead.id lead.status now := by
    rw [processOneLead_call1done fcp dna wr ⟨db, states, [], []⟩ lead now hid
      hstatus]
  have htraceGen : ∀ sts : List StateRec,
      (processOneLead fcp dna wr ⟨db, sts, [], []⟩ lead now).trace =
        [Op.stateWrite lead.id lead.status] ++
          (handleCall1Done db lead now wr).trace := by
    intro sts
    rw [processOneLead_call1done fcp dna wr ⟨db, sts, [], []⟩ lead now hid
      hstatus]
    rfl
  refine ⟨?_, ?_, ?_, ?_⟩
  · show (check_for_status_changes sellers states [lead] now).1 = [lead.id]
    rw [hdet]
  · show (check_for_status_changes sellers
      (processOneLead fcp dna wr ⟨db, states, [], []⟩ lead now).states
      [lead] now).1 = []
    rw [hstates, checkStatusChanges_single_unchanged sellers _ lead now
      ⟨lead.id, lead.status, now, now⟩ (getLeadState_update states _ _ _) rfl]
  · show ((processOneLead fcp dna wr
      ⟨db, (check_for_status_changes sellers states [lead] now).2, [], []⟩
      lead now).trace).filter isCall1Dispatch = []
    rw [htraceGen, List.filter_append, handleCall1Done_no_call1_dispatch]
    simp [isCall1Dispatch]
  · show ((processOneLead fcp dna wr ⟨db, states, [], []⟩ lead
      now).trace).filter isCall1Dispatch = []
    rw [htraceGen, List.filter_append, handleCall1Done_no_call1_dispatch]
    simp [isCall1Dispatch]

/-- Witness for `c5_amended` at the concrete transition scenario. -/
theorem c5_amended_witness :
    (detectionThenReminder [] "First Class Pending" "Did Not Attend"
        (fun _ _ => true) [] [⟨"L1", "Call #1 Needed", 0, 0⟩]
        ⟨"L1", "Call #1 Done", "", .empty, .ok 0, .ok 999999, .empty, .empty⟩
        1000).1 = ["L1"] ∧
      (reminderThenDetection [] "First Class Pending" "Did Not Attend"
        (fun _ _ => true) [] [⟨"L1", "Call #1 Needed", 0, 0⟩]
        ⟨"L1", "Call #1 Done", "", .empty, .ok 0, .ok 999999, .empty, .empty⟩
        1000).1 = [] ∧
      (detectionThenReminder [] "First Class Pending" "Did Not Attend"
        (fun _ _ => true) [] [⟨"L1", "Call #1 Needed", 0, 0⟩]
        ⟨"L1", "Call #1 Done", "", .empty, .ok 0, .ok 999999, .empty, .empty⟩
        1000).2.trace.filter isCall1Dispatch = [] ∧
      (reminderThenDetection [] "First Class Pending" "Did Not Attend"
        (fun _ _ => true) [] [⟨"L1", "Call #1 Needed", 0, 0⟩]
        ⟨"L1", "Call #1 Done", "", .empty, .ok 0, .ok 999999, .empty, .empty⟩
        1000).2.trace.filter isCall1Dispatch = [] :=
  c5_amended [] "First Class Pending" "Did Not Attend" (fun _ _ => true) []
    [⟨"L1", "Call #1 Needed", 0, 0⟩]
    ⟨"L1", "Call #1 Done", "", .empty, .ok 0, .ok 999999, .empty, .empty⟩
    1000 ⟨"L1", "Call #1 Needed", 0, 0⟩ (by decide) rfl rfl rfl rfl

theorem digitChar_isDigit (n : Nat) (h : n ≤ 9) : (digitChar n).isDigit = true := by
  interval_cases n <;> decide

theorem digitChar_toNat (n : Nat) (h : n ≤ 9) : (digitChar n).toNat = 48 + n := by
  interval_cases n <;> decide

theorem digitChar_not_ws (n : Nat) (h : n ≤ 9) :
    (digitChar n).isWhitespace = false := by
  interval_cases n <;> decide

theorem readFix_step (k : Nat) (c : Char) (rest : List Char) (acc : Nat)
    (hc : c.isDigit = true) :
    readFix (k + 1) (c :: rest) acc =
      readFix k rest (acc * 10 + (c.toNat - 48)) := by
  show (if c.isDigit = true then readFix k rest (acc * 10 + (c.toNat - 48))
    else none) = _
  rw [if_pos hc]

theorem readFix_pad4 (n : Nat) (h : n ≤ 9999) (rest : List Char) :
    readFix 4 (pad4 n ++ rest) 0 = some (n, rest) := by
  have h1 : n / 1000 ≤ 9 := by omega
  have h2 : n / 100 % 10 ≤ 9 := by omega
  have h3 : n / 10 % 10 ≤ 9 := by omega
  have h4 : n % 10 ≤ 9 := by omega
  show readFix 4 (digitChar (n / 1000) :: digitChar (n / 100 % 10) ::
    digitChar (n / 10 % 10) :: digitChar (n % 10) :: rest) 0 = some (n, rest)
  rw [readFix_step 3 _ _ _ (digitChar_isDigit _ h1),
    readFix_step 2 _ _ _ (digitChar_isDigit _ h2),
    readFix_step 1 _ _ _ (digitChar_isDigit _ h3),
    readFix_step 0 _ _ _ (digitChar_isDigit _ h4),
    digitChar_toNat _ h1, digitChar_toNat _ h2, digitChar_toNat _ h3,
    digitChar_toNat _ h4]
  show some (_, rest) = some (n, rest)
  simp only [Option.some.injEq, Prod.mk.injEq, and_true]
  omega

theorem read12_pad2 (n : Nat) (h : n ≤ 99) (rest : List Char) :
    read12 (pad2 n ++ rest) = some (n, rest) := by
  have h1 : n / 10 ≤ 9 := by omega
  have h2 : n % 10 ≤ 9 := by omega
  show (if (digitChar (n / 10)).isDigit = true then
      (if (digitChar (n % 10)).isDigit = true then
        some (((digitChar (n / 10)).toNat - 48) * 10 +
          ((digitChar (n % 10)).toNat - 48), rest)
      else some ((digitChar (n / 10)).toNat - 48, digitChar (n % 10) :: rest))
    else none) = some (n, rest)
  rw [if_pos (digitChar_isDigit _ h1), if_pos (digitChar_isDigit _ h2),
    digitChar_toNat _ h1, digitChar_toNat _ h2]
  simp only [Option.some.injEq, Prod.mk.injEq, and_true]
  omega

theorem daysInMonth_le_31 (y m : Nat) : daysInMonth y m ≤ 31 := by
  unfold daysInMonth
  split
  · split <;> omega
  · split <;> omega

theorem validDT_bounds (d : PyDateTime) (h : validDT d = true) :
    1 ≤ d.year ∧ d.year ≤ 9999 ∧ 1 ≤ d.month ∧ d.month ≤ 12 ∧ 1 ≤ d.day ∧
      d.day ≤ daysInMonth d.year d.month ∧ d.hour ≤ 23 ∧ d.minute ≤ 59 ∧
      d.second ≤ 59 ∧ d.usec ≤ 999999 := by
  simp only [validDT, Bool.and_eq_true, decide_eq_true_eq] at h
  tauto

theorem read12_pad2_nil (n : Nat) (h : n ≤ 99) :
    read12 (pad2 n) = some (n, []) := by
  have h2 := read12_pad2 n h []
  rwa [List.append_nil] at h2

theorem runFmt_format (d : PyDateTime) (hv : validDT d = true) :
    runFmt fmtYmdHMS (format_datetime d) ⟨1900, 1, 1, 0, 0, 0⟩ =
      some ⟨d.year, d.month, d.day, d.hour, d.minute, d.second⟩ := by
  obtain ⟨_, hy, _, hm, _, hd, hh, hmi, hs, _⟩ := validDT_bounds d hv
  have hm2 : d.month ≤ 99 := by omega
  have hd2 : d.day ≤ 99 := by
    have := daysInMonth_le_31 d.year d.month
    omega
  have hh2 : d.hour ≤ 99 := by omega
  have hmi2 : d.minute ≤ 99 := by omega
  have hs2 : d.second ≤ 99 := by omega
  simp only [format_datetime, fmtYmdHMS, runFmt, readFix_pad4 d.year hy,
    read12_pad2 d.month hm2, read12_pad2 d.day hd2, read12_pad2 d.hour hh2,
    read12_pad2 d.minute hmi2, read12_pad2 d.second hs2, setField]
  simp [read12_pad2_nil d.second hs2, runFmt]

theorem tryFormats_format (d : PyDateTime) (hv : validDT d = true) :
    tryFormats formatsList (format_datetime d) =
      some ⟨d.year, d.month, d.day, d.hour, d.minute, d.second, 0⟩ := by
  have hv2 : validDT ⟨d.year, d.month, d.day, d.hour, d.minute, d.second, 0⟩
      = true := by
    simp only [validDT, Bool.and_eq_true, decide_eq_true_eq] at hv ⊢
    exact ⟨hv.1, by omega⟩
  show tryFormats (fmtYmdHMS :: [fmtYmdHM, fmtYmd, fmtDmyHMS, fmtDmyHM,
    fmtDmy, fmtMdyHMS, fmtMdyHM, fmtMdy]) (format_datetime d) = _
  simp only [tryFormats, runFmt_format d hv, rawToDT, hv2, if_pos]

theorem trimChars_cons_append (l : List Char) (a c : Char)
    (ha : a.isWhitespace = false) (hc : c.isWhitespace = false) :
    trimChars (a :: (l ++ [c])) = a :: (l ++ [c]) := by
  unfold trimChars
  rw [List.dropWhile_cons, ha]
  rw [if_neg Bool.false_ne_true]
  have hrev : (a :: (l ++ [c])).reverse = c :: (l.reverse ++ [a]) := by
    simp
  rw [hrev, List.dropWhile_cons, hc]
  rw [if_neg Bool.false_ne_true]
  rw [← hrev, List.reverse_reverse]

theorem format_datetime_shape (d : PyDateTime) :
    format_datetime d = digitChar (d.year / 1000) ::
      ([digitChar (d.year / 100 % 10), digitChar (d.year / 10 % 10),
        digitChar (d.year % 10), '-', digitChar (d.month / 10),
        digitChar (d.month % 10), '-', digitChar (d.day / 10),
        digitChar (d.day % 10), ' ', digitChar (d.hour / 10),
        digitChar (d.hour % 10), ':', digitChar (d.minute / 10),
        digitChar (d.minute % 10), ':', digitChar (d.second / 10)] ++
        [digitChar (d.second % 10)]) := rfl

theorem trimChars_format (d : PyDateTime) (hv : validDT d = true) :
    trimChars (format_datetime d) = format_datetime d := by
  obtain ⟨_, hy, _⟩ := validDT_bounds d hv
  rw [format_datetime_shape d]
  exact trimChars_cons_append _ _ _ (digitChar_not_ws _ (by omega))
    (digitChar_not_ws _ (by omega))

/-- C9: for every UTC-aware timestamp inside Python's datetime envelope,
formatting it with `format_datetime` (default pattern, zero-padded
directives) and re-parsing the string with `parse_datetime` succeeds via the
first strptime format and yields the original timestamp truncated to whole
seconds (microseconds dropped by the pattern). -/
theorem c9_format_parse_roundtrip (d : PyDateTime) (h : validDT d = true) :
    parse_datetime (format_datetime d) = some { d with usec := 0 } := by
  show (if (trimChars (format_datetime d)).isEmpty = true then none
    else match tryFormats formatsList (trimChars (format_datetime d)) with
      | some dt => some dt
      | none => parseIso (replaceZ (trimChars (format_datetime d)))) = _
  rw [trimChars_format d h]
  have hne : (format_datetime d).isEmpty = false := rfl
  rw [hne, if_neg Bool.false_ne_true, tryFormats_format d h]

/-- Witness for `c9_format_parse_roundtrip` at a concrete timestamp with
microseconds. -/
theorem c9_format_parse_roundtrip_witness :
    validDT ⟨2025, 1, 2, 3, 4, 5, 123456⟩ = true ∧
      parse_datetime (format_datetime ⟨2025, 1, 2, 3, 4, 5, 123456⟩) =
        some ⟨2025, 1, 2, 3, 4, 5, 0⟩ :=
  ⟨by decide, c9_format_parse_roundtrip ⟨2025, 1, 2, 3, 4, 5, 123456⟩ (by decide)⟩
